import Mathlib

/-!
Configuration validation and log set-up of `lib/Global/configuration.go`

A shallow embedding of the Go package `Global`:

* the three configuration records and `Configuration.SanityCheck`;
* `InitLog`, over an explicit value of the process-wide logger;
* `LogFormat.Format` and `getColorByLevel`.

Conventions of the embedding.

* Go `int` is 64 bit two's complement.  Integer fields are `Int`; the only
  arithmetic of the file, `x + 8000`, is wrapped by `wrapInt`.
* Go strings are Lean strings (valid UTF-8 text); a `bytes.Buffer` is the
  string written so far.
* Code that lives outside the file is an explicit argument: the file system
  test `CheckIfPathExists`, the result of `os.OpenFile`, the Unicode case
  tables of package `unicode`, `time.Time.Format`, `fmt.Fprint` of a field
  value, and the order in which `range` visits a map.
* The logger of `logrus` is a record: threshold, destination, formatter and
  the records it has emitted so far, oldest first.
-/

namespace Global

/-! ## Machine integers -/

/-- Two's complement wrap of a mathematical integer into the range of Go `int`
(64 bit): the result of a Go `int` operation whose exact value is `x`. -/
def wrapInt (x : Int) : Int := (x + 2 ^ 63) % 2 ^ 64 - 2 ^ 63

/-- The values a Go `int` can hold. -/
def isInt (x : Int) : Prop := -(2 ^ 63) ≤ x ∧ x < 2 ^ 63

instance (x : Int) : Decidable (isInt x) := by unfold isInt; infer_instance

/-! ## The logging runtime (`logrus`), as far as the file uses it -/

/-- Severity levels of `logrus`, in the numeric order of the library
(`PanicLevel = 0`, ..., `TraceLevel = 6`): the seven values that the library
gives to an entry. -/
inductive Level where
  | PanicLevel
  | FatalLevel
  | ErrorLevel
  | WarnLevel
  | InfoLevel
  | DebugLevel
  | TraceLevel
  deriving DecidableEq

/-- Numeric value of a level (`type Level uint32`). -/
def Level.toNat : Level → Nat
  | .PanicLevel => 0
  | .FatalLevel => 1
  | .ErrorLevel => 2
  | .WarnLevel => 3
  | .InfoLevel => 4
  | .DebugLevel => 5
  | .TraceLevel => 6

/-- Rendering of a level, `Level.String` of the library. -/
def Level.String : Level → String
  | .PanicLevel => "panic"
  | .FatalLevel => "fatal"
  | .ErrorLevel => "error"
  | .WarnLevel => "warning"
  | .InfoLevel => "info"
  | .DebugLevel => "debug"
  | .TraceLevel => "trace"

/-- The formatter type of the file: `type LogFormat struct`. -/
structure LogFormat where
  TimestampFormat : String
  deriving DecidableEq

/-- Destination of the logger: the library default (standard error), the
console stream `os.Stdout`, or a file opened by path. -/
inductive Output where
  | stderr
  | stdout
  | file (path : String)
  deriving DecidableEq

/-- One emitted log record: its level and its message. -/
structure Record where
  Level : Level
  Message : String
  deriving DecidableEq

/-- The process-wide logger: threshold, destination, installed formatter
(`none` is the default text formatter of the library) and the records emitted
so far, oldest first. -/
structure Logger where
  Level : Level
  Out : Output
  Formatter : Option LogFormat
  Records : List Record
  deriving DecidableEq

/-- The logger as the library creates it: threshold info, standard error,
default formatter, nothing emitted. -/
def Logger.std : Logger :=
  { Level := .InfoLevel, Out := .stderr, Formatter := none, Records := [] }

/-- Level gate of the library: a record of level `lvl` is written iff the
threshold is numerically at least `lvl`. -/
def Logger.IsLevelEnabled (lg : Logger) (lvl : Global.Level) : Bool :=
  decide (lvl.toNat ≤ lg.Level.toNat)

/-- Emission of one record at level `lvl`, subject to the level gate. -/
def Logger.Log (lg : Logger) (lvl : Global.Level) (msg : String) : Logger :=
  if lg.IsLevelEnabled lvl then
    { lg with Records := lg.Records ++ [{ Level := lvl, Message := msg }] }
  else lg

/-- Call `log.Debug`. -/
def Logger.Debug (lg : Logger) (msg : String) : Logger := lg.Log .DebugLevel msg

/-- Call `log.Info`. -/
def Logger.Info (lg : Logger) (msg : String) : Logger := lg.Log .InfoLevel msg

/-- Calls `log.Warn` and `log.Warning`. -/
def Logger.Warn (lg : Logger) (msg : String) : Logger := lg.Log .WarnLevel msg

/-- Call `log.Error`. -/
def Logger.Error (lg : Logger) (msg : String) : Logger := lg.Log .ErrorLevel msg

/-- Call `log.SetLevel`. -/
def Logger.SetLevel (lg : Logger) (lvl : Global.Level) : Logger := { lg with Level := lvl }

/-- Call `log.SetOutput`. -/
def Logger.SetOutput (lg : Logger) (out : Output) : Logger := { lg with Out := out }

/-- Call `log.SetFormatter`. -/
def Logger.SetFormatter (lg : Logger) (f : LogFormat) : Logger :=
  { lg with Formatter := some f }

/-! ## The configuration records -/

/-- Cluster section: `type pxcCluster struct`. -/
structure pxcCluster where
  ActiveFailover : Int
  FailBack : Bool
  CheckTimeOut : Int
  ClusterId : Int
  Debug : Int
  Development : Bool
  DevelopmentTime : Int
  Host : String
  LogDir : String
  LogLevel : String
  MainSegment : Int
  MaxNumWriters : Int
  OS : String
  Password : String
  Port : Int
  RetryDown : Int
  RetryUp : Int
  SinglePrimary : Bool
  SslClient : String
  SslKey : String
  SslCa : String
  SslcertificatePath : String
  User : String
  WriterIsAlsoReader : Int
  HgW : Int
  HgR : Int
  BckHgW : Int
  BckHgR : Int
  SingleWriter : Int
  MaxWriters : Int

/-- Proxy section: `type proxySql struct`. -/
structure proxySql where
  Host : String
  Password : String
  Port : Int
  User : String
  Clustered : Bool
  LockFilePath : String

/-- Scheduler section: `type globalScheduler struct`. -/
structure globalScheduler where
  Debug : Bool
  LogLevel : String
  LogTarget : String
  LogFile : String
  Daemonize : Bool
  DaemonInterval : Int
  Performance : Bool
  LockFileTimeout : Int
  LockClusterTimeout : Int

/-- Root record: `type Configuration struct`. -/
structure Configuration where
  Proxysql : proxySql
  Pxcluster : pxcCluster
  Global : globalScheduler

/-- The decoder default of every field (Go zero values). -/
def Configuration.zero : Configuration :=
  { Proxysql := { Host := "", Password := "", Port := 0, User := "", Clustered := false,
                  LockFilePath := "" },
    Pxcluster := { ActiveFailover := 0, FailBack := false, CheckTimeOut := 0, ClusterId := 0,
                   Debug := 0, Development := false, DevelopmentTime := 0, Host := "",
                   LogDir := "", LogLevel := "", MainSegment := 0, MaxNumWriters := 0,
                   OS := "", Password := "", Port := 0, RetryDown := 0, RetryUp := 0,
                   SinglePrimary := false, SslClient := "", SslKey := "", SslCa := "",
                   SslcertificatePath := "", User := "", WriterIsAlsoReader := 0, HgW := 0,
                   HgR := 0, BckHgW := 0, BckHgR := 0, SingleWriter := 0, MaxWriters := 0 },
    Global := { Debug := false, LogLevel := "", LogTarget := "", LogFile := "",
                Daemonize := false, DaemonInterval := 0, Performance := false,
                LockFileTimeout := 0, LockClusterTimeout := 0 } }

/-! ## `SanityCheck` -/

/-- Decimal rendering of an integer, the verb `%d` of `fmt.Sprintf` and
`strconv.Itoa`. -/
def Itoa (i : Int) : String := toString i

/-- Diagnostic of the hostgroup check (the `fmt.Sprintf` of the third test). -/
def hgMessage (c : pxcCluster) : String :=
  "Hostgroups and Backup HG do not match. HGw " ++ Itoa c.HgW ++ " - BKHGw " ++ Itoa c.BckHgW
    ++ "; HGr " ++ Itoa c.HgR ++ " - BKHGr " ++ Itoa c.BckHgR

/-- Result of `SanityCheck`: the returned boolean, the configuration behind
the receiver pointer after the call, and the logger after the call. -/
structure CheckResult where
  ok : Bool
  conf : Configuration
  log : Logger

/-- Method `(conf *Configuration) SanityCheck() bool`.  `CheckIfPathExists` is
the file system test of the package, a function of the path in a fixed file
system state. -/
def SanityCheck (CheckIfPathExists : String → Bool) (conf : Configuration) (lg : Logger) :
    CheckResult :=
  if decide (conf.Pxcluster.MaxNumWriters > 1) && conf.Pxcluster.SinglePrimary then
    { ok := false, conf := conf,
      log := lg.Error "Configuration error cannot have SinglePrimary true and MaxNumWriter >1" }
  else if decide (conf.Pxcluster.WriterIsAlsoReader ≠ 1) &&
      (decide (conf.Pxcluster.MaxWriters > 1) || !conf.Pxcluster.SinglePrimary) then
    { ok := false, conf := conf,
      log := lg.Error
        "Configuration error cannot have WriterIsAlsoReader NOT = 1 and use more than one Writer" }
  else if decide (wrapInt (conf.Pxcluster.HgW + 8000) ≠ conf.Pxcluster.BckHgW) ||
      decide (wrapInt (conf.Pxcluster.HgR + 8000) ≠ conf.Pxcluster.BckHgR) then
    { ok := false, conf := conf, log := lg.Error (hgMessage conf.Pxcluster) }
  else if conf.Proxysql.LockFilePath = "" then
    let lg1 := lg.Warn ("LockFilePath is invalid. Currently set to: |" ++
      conf.Proxysql.LockFilePath ++ "|  I will set to /tmp/ ")
    let conf1 : Configuration :=
      { conf with Proxysql := { conf.Proxysql with LockFilePath := "/tmp" } }
    if !CheckIfPathExists conf1.Proxysql.LockFilePath then
      { ok := false, conf := conf1,
        log := lg1.Error ("LockFilePath is not accessible currently set to: |" ++
          conf1.Proxysql.LockFilePath ++ "|") }
    else
      { ok := true, conf := conf1, log := lg1 }
  else
    { ok := true, conf := conf, log := lg }

/-- First test of `SanityCheck` not triggered: single primary and writer count
agree. -/
def singlePrimaryOk (c : pxcCluster) : Prop :=
  ¬ (c.MaxNumWriters > 1 ∧ c.SinglePrimary = true)

/-- Second test of `SanityCheck` not triggered: writer-is-also-reader and
writer cardinality agree. -/
def writerReaderOk (c : pxcCluster) : Prop :=
  ¬ (c.WriterIsAlsoReader ≠ 1 ∧ (c.MaxWriters > 1 ∨ c.SinglePrimary = false))

/-- Third test of `SanityCheck` not triggered: both backup hostgroups equal
the Go value of primary plus 8000. -/
def hostgroupsOk (c : pxcCluster) : Prop :=
  wrapInt (c.HgW + 8000) = c.BckHgW ∧ wrapInt (c.HgR + 8000) = c.BckHgR

instance (c : pxcCluster) : Decidable (singlePrimaryOk c) := by
  unfold singlePrimaryOk; infer_instance

instance (c : pxcCluster) : Decidable (writerReaderOk c) := by
  unfold writerReaderOk; infer_instance

instance (c : pxcCluster) : Decidable (hostgroupsOk c) := by
  unfold hostgroupsOk; infer_instance

/-- A configuration that every test accepts: single primary, one writer,
hostgroups 0 and 1 with backups 8000 and 8001, lock files under `/var/run`. -/
def sampleConf : Configuration :=
  { Configuration.zero with
    Pxcluster := { Configuration.zero.Pxcluster with
      SinglePrimary := true, MaxNumWriters := 1, MaxWriters := 1, WriterIsAlsoReader := 1,
      HgW := 0, HgR := 1, BckHgW := 8000, BckHgR := 8001 },
    Proxysql := { Configuration.zero.Proxysql with LockFilePath := "/var/run" } }

/-- Replace the cluster section of a configuration. -/
def withCluster (conf : Configuration) (c : pxcCluster) : Configuration :=
  { conf with Pxcluster := c }

/-- Replace the lock file path of a configuration. -/
def withLockFilePath (conf : Configuration) (p : String) : Configuration :=
  { conf with Proxysql := { conf.Proxysql with LockFilePath := p } }

/-- A file system state in which `/tmp` is the only accessible path. -/
def onlyTmp (p : String) : Bool := decide (p = "/tmp")

/-- A file system state in which no path is accessible. -/
def noPath (_ : String) : Bool := false

/-! ## Case mapping of package `strings` -/

/-- Lower case of an ASCII rune: the letters `A` to `Z` move by 32. -/
def asciiLower (c : Char) : Char :=
  if 'A' ≤ c ∧ c ≤ 'Z' then Char.ofNat (c.toNat + 32) else c

/-- Upper case of an ASCII rune: the letters `a` to `z` move by 32. -/
def asciiUpper (c : Char) : Char :=
  if 'a' ≤ c ∧ c ≤ 'z' then Char.ofNat (c.toNat - 32) else c

/-- One rune of `strings.ToLower`: an ASCII rune is mapped by `asciiLower`, and
a rune outside ASCII is looked up in the Unicode table `tbl` (package
`unicode`). -/
def lowerRune (tbl : Char → Char) (c : Char) : Char :=
  if c.toNat < 128 then asciiLower c else tbl c

/-- Function `strings.ToLower`. -/
def ToLower (tbl : Char → Char) (s : String) : String := ⟨s.data.map (lowerRune tbl)⟩

/-- One rune of `strings.ToUpper`, as `lowerRune` with the roles exchanged. -/
def upperRune (tbl : Char → Char) (c : Char) : Char :=
  if c.toNat < 128 then asciiUpper c else tbl c

/-- Function `strings.ToUpper`. -/
def ToUpper (tbl : Char → Char) (s : String) : String := ⟨s.data.map (upperRune tbl)⟩

/-! ## `InitLog` -/

/-- Result of `InitLog`: the returned boolean and the logger after the call. -/
structure InitResult where
  ok : Bool
  log : Logger
  deriving DecidableEq

/-- Function `InitLog(config Configuration) bool`, run on the logger `lg`.
`lowerTbl` is the Unicode table behind `strings.ToLower`; `OpenFile p` is the
error text of `os.OpenFile(p, O_CREATE|O_APPEND|O_WRONLY, 0666)`, or `none`
when the file opens. -/
def InitLog (lowerTbl : Char → Char) (OpenFile : String → Option String)
    (config : Configuration) (lg : Logger) : InitResult :=
  let formatter : LogFormat := { TimestampFormat := "2006-01-02 15:04:05" }
  let lg1 := lg.SetFormatter formatter
  -- destination; `Except.error` is the early `return false`
  let dest : Except Logger Logger :=
    if ToLower lowerTbl config.Global.LogTarget = "stdout" then
      .ok (lg1.SetOutput .stdout)
    else if ToLower lowerTbl config.Global.LogTarget = "file" ∧ config.Global.LogFile ≠ "" then
      match OpenFile config.Global.LogFile with
      | none => .ok (lg1.SetOutput (.file config.Global.LogFile))
      | some err => .error (lg1.Error ("Error logging to file " ++ err))
    else .ok lg1
  match dest with
  | .error lgE => { ok := false, log := lgE }
  | .ok lg2 =>
    let level := ToLower lowerTbl config.Global.LogLevel
    let lg3 :=
      if level = "debug" then lg2.SetLevel .DebugLevel
      else if level = "info" then lg2.SetLevel .InfoLevel
      else if level = "warning" then lg2.SetLevel .WarnLevel
      else if level = "error" then lg2.SetLevel .ErrorLevel
      else lg2.SetLevel .ErrorLevel
    let lg4 :=
      if lg3.Level = .DebugLevel then
        let a := lg3.Debug "Testing the log"
        let b := a.Info "Testing the log"
        let c := b.Warn "Testing the log"
        let d := c.Error "testing log errors"
        let e := d.SetLevel .DebugLevel
        e.Debug "Log initialized"
      else lg3
    { ok := true, log := lg4 }

/-! ## The line formatter -/

/-- Constant `colorRed`. -/
def colorRed : Int := 31

/-- Constant `colorYellow`. -/
def colorYellow : Int := 33

/-- Constant `colorBlue`. -/
def colorBlue : Int := 36

/-- Constant `colorGray`, whose value in the file is 34. -/
def colorGray : Int := 34

/-- Constant `paniclevel`. -/
def paniclevel : Int := 35

/-- Function `getColorByLevel`. -/
def getColorByLevel : Level → Int
  | .DebugLevel => colorGray
  | .WarnLevel => colorYellow
  | .ErrorLevel => colorRed
  | .PanicLevel => paniclevel
  | .FatalLevel => paniclevel
  | _ => colorBlue

/-- The fields of a `logrus` entry that the formatter reads.  `Data` lists the
bindings of the map `entry.Data` (one pair per key), `T` is the type of time
stamps and `V` the type of field values; `Buffer` is the content of
`entry.Buffer`, `none` for a nil pointer. -/
structure Entry (T V : Type) where
  Data : List (String × V)
  Time : T
  Level : Level
  Message : String
  Buffer : Option String

/-- The bytes that one turn of the `range` loop of `Format` appends for the
binding `kv`, starting from buffer `b`. -/
def writeField {V : Type} (Fprint : V → String) (b : String) (kv : String × V) : String :=
  (((b ++ kv.1).push '=').push '\x7b' ++ Fprint kv.2) ++ "\x7d, "

/-- Method `(f *LogFormat) Format(entry *log.Entry) ([]byte, error)`.
`upperTbl` is the Unicode table behind `strings.ToUpper`, `timeFormat` is
`time.Time.Format`, `Fprint` is what `fmt.Fprint` writes for a field value, and
`visit` is the sequence of bindings in the order in which `range entry.Data`
delivers them (Go leaves that order open; it is some arrangement of `Data`). -/
def Format {T V : Type} (upperTbl : Char → Char) (timeFormat : T → String → String)
    (Fprint : V → String) (f : LogFormat) (entry : Entry T V) (visit : List (String × V)) :
    Except String String :=
  let b0 : String := match entry.Buffer with
    | some b => b
    | none => ""
  let b1 := b0 ++ ("\x1b[" ++ Itoa (getColorByLevel entry.Level) ++ "m")
  let b2 := b1.push '['
  let b3 := b2 ++ ToUpper upperTbl entry.Level.String
  let b4 := b3 ++ "]"
  let b5 := b4 ++ "\x1b[0m"
  let b6 := b5.push ':'
  let b7 := b6 ++ timeFormat entry.Time f.TimestampFormat
  let b8 := if entry.Message ≠ "" then (b7 ++ " - ") ++ entry.Message else b7
  let b9 := if entry.Data.length > 0 then b8 ++ " || " else b8
  let b10 := visit.foldl (writeField Fprint) b9
  let b11 := b10.push '\n'
  .ok b11

/-- The text of one structured field in the line: `key={value}, `. -/
def fieldSegment {V : Type} (Fprint : V → String) (kv : String × V) : String :=
  kv.1 ++ "=\x7b" ++ Fprint kv.2 ++ "\x7d, "

/-- The part of every line up to and including the time stamp: colour start,
bracketed upper-case level, colour reset, colon, time stamp. -/
def lineHead {T : Type} (upperTbl : Char → Char) (timeFormat : T → String → String)
    (layout : String) (lvl : Level) (t : T) : String :=
  "\x1b[" ++ Itoa (getColorByLevel lvl) ++ "m" ++ "[" ++ ToUpper upperTbl lvl.String ++ "]"
    ++ "\x1b[0m" ++ ":" ++ timeFormat t layout

/-! ## Sample inputs for the formatter and for `InitLog` -/

/-- A stand-in for `time.Time.Format` on time stamps that are given by their
rendering in the layout of `InitLog`; any other layout is echoed. -/
def sampleTimeFormat (t : String) (layout : String) : String :=
  if layout = "2006-01-02 15:04:05" then t else layout

/-- The entry of the worked formatter example: level error, message
`disk full`, one field `node` with value `db1`, a nil buffer. -/
def sampleEntry : Entry String String :=
  { Data := [("node", "db1")], Time := "2021-03-04 05:06:07", Level := .ErrorLevel,
    Message := "disk full", Buffer := none }

/-- An entry with two fields, no message and an empty buffer. -/
def twoFieldEntry : Entry String String :=
  { Data := [("node", "db1"), ("hg", "100")], Time := "2021-03-04 05:06:07",
    Level := .WarnLevel, Message := "", Buffer := some "" }

/-- An entry without message and without fields. -/
def bareEntry : Entry String String :=
  { Data := [], Time := "2021-03-04 05:06:07", Level := .InfoLevel, Message := "",
    Buffer := none }

/-- A configuration with the given level name, logging to the console. -/
def levelConf (name : String) : Configuration :=
  { Configuration.zero with
    Global := { Configuration.zero.Global with LogLevel := name, LogTarget := "stdout" } }

/-- A file system in which every log file opens. -/
def opensAll (_ : String) : Option String := none

/-! ## Notions used to state facts about diagnostics -/

/-- The error-level records among `rs`, in order. -/
def errorsOf (rs : List Record) : List Record :=
  rs.filter (fun r => decide (r.Level = Level.ErrorLevel))

/-- The text `sub` occurs in the text `s`. -/
def occursIn (sub s : String) : Prop := ∃ a b : String, s = a ++ sub ++ b

/-- Diagnostic of the first test of `SanityCheck`. -/
def singlePrimaryMessage : String :=
  "Configuration error cannot have SinglePrimary true and MaxNumWriter >1"

/-- Diagnostic of the second test of `SanityCheck`. -/
def writerReaderMessage : String :=
  "Configuration error cannot have WriterIsAlsoReader NOT = 1 and use more than one Writer"

/-- Diagnostic of the lock path test of `SanityCheck`, for the path `/tmp`. -/
def lockPathMessage : String :=
  "LockFilePath is not accessible currently set to: |/tmp|"

/-- The sample configuration with the writer hostgroup at the largest Go `int`
and its backup at the wrapped sum. -/
def wrapConf : Configuration :=
  withCluster sampleConf
    { sampleConf.Pxcluster with HgW := 2 ^ 63 - 1, BckHgW := -(2 ^ 63) + 7999 }

/-- The number denoted by a list of decimal digit characters, most significant
first. -/
def decodeNat (cs : List Char) : Nat :=
  cs.foldl (fun a c => a * 10 + (c.toNat - 48)) 0

/-- The characters of unsigned decimal numerals. -/
def decimalDigits : List Char := ['0', '1', '2', '3', '4', '5', '6', '7', '8', '9']

/-- A file system in which no log file opens. -/
def opensNone (_ : String) : Option String := some "permission denied"

/-- A configuration with the given log target, log file and level name. -/
def targetConf (target file level : String) : Configuration :=
  { Configuration.zero with
    Global := { Configuration.zero.Global with
      LogTarget := target, LogFile := file, LogLevel := level } }

/-- The five records of the self-test of `InitLog`, in the order of emission. -/
def selfTestRecords : List Record :=
  [{ Level := Level.DebugLevel, Message := "Testing the log" },
   { Level := Level.InfoLevel, Message := "Testing the log" },
   { Level := Level.WarnLevel, Message := "Testing the log" },
   { Level := Level.ErrorLevel, Message := "testing log errors" },
   { Level := Level.DebugLevel, Message := "Log initialized" }]

/-- The second half of `InitLog`, on the logger left by the destination step:
the threshold chosen by the lower-cased level name, then the self-test. -/
def levelAndSelfTest (level : String) (lg2 : Logger) : Logger :=
  let lg3 :=
    if level = "debug" then lg2.SetLevel .DebugLevel
    else if level = "info" then lg2.SetLevel .InfoLevel
    else if level = "warning" then lg2.SetLevel .WarnLevel
    else if level = "error" then lg2.SetLevel .ErrorLevel
    else lg2.SetLevel .ErrorLevel
  if lg3.Level = .DebugLevel then
    let a := lg3.Debug "Testing the log"
    let b := a.Info "Testing the log"
    let c := b.Warn "Testing the log"
    let d := c.Error "testing log errors"
    let e := d.SetLevel .DebugLevel
    e.Debug "Log initialized"
  else lg3

/-- An entry without fields whose message ends in the text of a field. -/
def spoofEntry : Entry String String :=
  { Data := [], Time := "2021-03-04 05:06:07", Level := .ErrorLevel,
    Message := "disk full || node=\x7bdb1\x7d, ", Buffer := none }

/-- The message segment of a line: ` - ` and the message, or nothing for an
empty message. -/
def messageSegment (m : String) : String := if m ≠ "" then " - " ++ m else ""

/-- A structured field as a downstream reader sees it: the key and the printed
form of the value. -/
def printed {V : Type} (Fprint : V → String) (kv : String × V) : String × String :=
  (kv.1, Fprint kv.2)

/-- The entry of Go's lower-case table at the dotless i (U+0131): it is a
lower-case letter and `unicode.ToLower` keeps it.  Other runes outside ASCII
are kept too; the examples below use no other one. -/
def dotlessLower (c : Char) : Char := c

/-- The entry of Go's upper-case table at the dotless i (U+0131):
`unicode.ToUpper` maps it to the ASCII letter `I`.  Other runes outside ASCII
are kept; the examples below use no other one. -/
def dotlessUpper (c : Char) : Char := if c = 'ı' then 'I' else c

/-- The fresh logger with its threshold set to fatal (`log.SetLevel` with
`log.FatalLevel`), under which error records are not written. -/
def fatalLogger : Logger := Logger.std.SetLevel Level.FatalLevel

/-! ## Facts about `SanityCheck` -/

/-- C1: with `SinglePrimary = true`, in any file system state, an accepted
configuration has `MaxNumWriters ≤ 1`; and `MaxNumWriters = 2` is rejected
whatever the other fields are. -/
theorem SanityCheck_singlePrimary_writers (fs : String → Bool) (conf : Configuration)
    (lg : Logger) (hsp : conf.Pxcluster.SinglePrimary = true) :
    ((SanityCheck fs conf lg).ok = true → conf.Pxcluster.MaxNumWriters ≤ 1) ∧
    (conf.Pxcluster.MaxNumWriters = 2 → (SanityCheck fs conf lg).ok = false) := by
  constructor
  · intro hok
    by_contra hgt
    have hgt1 : conf.Pxcluster.MaxNumWriters > 1 := by omega
    simp [SanityCheck, hsp, hgt1] at hok
  · intro h2
    simp [SanityCheck, hsp, h2]

/-- Witness of C1: the sample configuration has `SinglePrimary = true`, is
accepted with one writer, and is rejected once `MaxNumWriters` is 2. -/
theorem SanityCheck_singlePrimary_writers_witness :
    sampleConf.Pxcluster.SinglePrimary = true ∧
    (SanityCheck onlyTmp sampleConf Logger.std).ok = true ∧
    sampleConf.Pxcluster.MaxNumWriters ≤ 1 ∧
    (SanityCheck noPath
      (withCluster sampleConf { sampleConf.Pxcluster with MaxNumWriters := 2 })
      Logger.std).ok = false :=
  ⟨by decide, by decide,
   (SanityCheck_singlePrimary_writers onlyTmp sampleConf Logger.std (by decide)).1 (by decide),
   (SanityCheck_singlePrimary_writers noPath
      (withCluster sampleConf { sampleConf.Pxcluster with MaxNumWriters := 2 })
      Logger.std (by decide)).2 (by decide)⟩

/-- C2: with `WriterIsAlsoReader ≠ 1`, a configuration with `MaxWriters > 1` or
`SinglePrimary = false` is rejected; so an accepted one has `MaxWriters ≤ 1`
and `SinglePrimary = true`. -/
theorem SanityCheck_writerIsAlsoReader (fs : String → Bool) (conf : Configuration)
    (lg : Logger) (hw : conf.Pxcluster.WriterIsAlsoReader ≠ 1) :
    ((conf.Pxcluster.MaxWriters > 1 ∨ conf.Pxcluster.SinglePrimary = false) →
      (SanityCheck fs conf lg).ok = false) ∧
    ((SanityCheck fs conf lg).ok = true →
      conf.Pxcluster.MaxWriters ≤ 1 ∧ conf.Pxcluster.SinglePrimary = true) := by
  have key : (conf.Pxcluster.MaxWriters > 1 ∨ conf.Pxcluster.SinglePrimary = false) →
      (SanityCheck fs conf lg).ok = false := by
    intro h
    unfold SanityCheck
    split_ifs with h1 h2 <;> simp_all
  refine ⟨key, fun hok => ?_⟩
  constructor
  · by_contra hgt
    have := key (Or.inl (by omega))
    simp [hok] at this
  · by_contra hsp
    have := key (Or.inr (by simpa using hsp))
    simp [hok] at this

/-- Witness of C2: with `WriterIsAlsoReader = 0` the sample configuration is
accepted (one writer, single primary) and is rejected with two writers or
without single primary. -/
theorem SanityCheck_writerIsAlsoReader_witness :
    (SanityCheck onlyTmp
      (withCluster sampleConf { sampleConf.Pxcluster with WriterIsAlsoReader := 0 })
      Logger.std).ok = true ∧
    (SanityCheck onlyTmp
      (withCluster sampleConf
        { sampleConf.Pxcluster with WriterIsAlsoReader := 0, MaxWriters := 2 })
      Logger.std).ok = false ∧
    (SanityCheck onlyTmp
      (withCluster sampleConf
        { sampleConf.Pxcluster with WriterIsAlsoReader := 0, SinglePrimary := false })
      Logger.std).ok = false :=
  ⟨by decide,
   (SanityCheck_writerIsAlsoReader onlyTmp
      (withCluster sampleConf
        { sampleConf.Pxcluster with WriterIsAlsoReader := 0, MaxWriters := 2 })
      Logger.std (by decide)).1 (Or.inl (by decide)),
   (SanityCheck_writerIsAlsoReader onlyTmp
      (withCluster sampleConf
        { sampleConf.Pxcluster with WriterIsAlsoReader := 0, SinglePrimary := false })
      Logger.std (by decide)).1 (Or.inr (by decide))⟩

/-- An exact sum that a Go `int` can hold is not changed by the wrap. -/
theorem wrapInt_of_isInt (x : Int) (h : isInt x) : wrapInt x = x := by
  unfold isInt at h
  unfold wrapInt
  omega

/-- The first `if` of `SanityCheck` is not taken iff `singlePrimaryOk`. -/
theorem cond1_false_iff (c : pxcCluster) :
    (decide (c.MaxNumWriters > 1) && c.SinglePrimary) = false ↔ singlePrimaryOk c := by
  unfold singlePrimaryOk
  rw [Bool.eq_false_iff]
  simp

/-- The second `if` of `SanityCheck` is not taken iff `writerReaderOk`. -/
theorem cond2_false_iff (c : pxcCluster) :
    (decide (c.WriterIsAlsoReader ≠ 1) && (decide (c.MaxWriters > 1) || !c.SinglePrimary))
      = false ↔ writerReaderOk c := by
  unfold writerReaderOk
  rw [Bool.eq_false_iff]
  simp

/-- The third `if` of `SanityCheck` is not taken iff `hostgroupsOk`. -/
theorem cond3_false_iff (c : pxcCluster) :
    (decide (wrapInt (c.HgW + 8000) ≠ c.BckHgW) || decide (wrapInt (c.HgR + 8000) ≠ c.BckHgR))
      = false ↔ hostgroupsOk c := by
  unfold hostgroupsOk
  rw [Bool.eq_false_iff]
  simp

/-- Outcome of `SanityCheck` once the three field tests are passed: only the
lock path test is left. -/
theorem SanityCheck_of_fieldsOk (fs : String → Bool) (conf : Configuration) (lg : Logger)
    (h1 : singlePrimaryOk conf.Pxcluster) (h2 : writerReaderOk conf.Pxcluster)
    (h3 : hostgroupsOk conf.Pxcluster) :
    (SanityCheck fs conf lg).ok = (decide (conf.Proxysql.LockFilePath ≠ "") || fs "/tmp") ∧
    (SanityCheck fs conf lg).conf =
      (if conf.Proxysql.LockFilePath = "" then withLockFilePath conf "/tmp" else conf) := by
  have c1 := (cond1_false_iff _).2 h1
  have c2 := (cond2_false_iff _).2 h2
  have c3 := (cond3_false_iff _).2 h3
  unfold SanityCheck
  rw [c1, c2, c3]
  by_cases hp : conf.Proxysql.LockFilePath = ""
  · cases hfs : fs "/tmp" <;> simp [hp, hfs, withLockFilePath]
  · simp [hp]

/-- Outcome of `SanityCheck` when one of the three field tests fails: the call
is rejected and the configuration is left as it was. -/
theorem SanityCheck_of_not_fieldsOk (fs : String → Bool) (conf : Configuration) (lg : Logger)
    (h : ¬ (singlePrimaryOk conf.Pxcluster ∧ writerReaderOk conf.Pxcluster ∧
      hostgroupsOk conf.Pxcluster)) :
    (SanityCheck fs conf lg).ok = false ∧ (SanityCheck fs conf lg).conf = conf := by
  rw [← cond1_false_iff, ← cond2_false_iff, ← cond3_false_iff] at h
  unfold SanityCheck
  cases c1 : (decide (conf.Pxcluster.MaxNumWriters > 1) && conf.Pxcluster.SinglePrimary)
  · cases c2 : (decide (conf.Pxcluster.WriterIsAlsoReader ≠ 1) &&
        (decide (conf.Pxcluster.MaxWriters > 1) || !conf.Pxcluster.SinglePrimary))
    · cases c3 : (decide (wrapInt (conf.Pxcluster.HgW + 8000) ≠ conf.Pxcluster.BckHgW) ||
          decide (wrapInt (conf.Pxcluster.HgR + 8000) ≠ conf.Pxcluster.BckHgR))
      · exact absurd ⟨c1, c2, c3⟩ h
      · simp
    · simp
  · simp

/-- C3: for a configuration that passes the single-primary and the
writer-is-also-reader tests and has a non-empty lock path, with `HgW + 8000`
and `HgR + 8000` representable (zero and negative identifiers included),
`SanityCheck` accepts iff `BckHgW - HgW = 8000` and `BckHgR - HgR = 8000`. -/
theorem SanityCheck_hostgroup_offset (fs : String → Bool) (conf : Configuration) (lg : Logger)
    (h1 : singlePrimaryOk conf.Pxcluster) (h2 : writerReaderOk conf.Pxcluster)
    (hp : conf.Proxysql.LockFilePath ≠ "")
    (hW : isInt (conf.Pxcluster.HgW + 8000)) (hR : isInt (conf.Pxcluster.HgR + 8000)) :
    (SanityCheck fs conf lg).ok = true ↔
      (conf.Pxcluster.BckHgW - conf.Pxcluster.HgW = 8000 ∧
       conf.Pxcluster.BckHgR - conf.Pxcluster.HgR = 8000) := by
  have eW := wrapInt_of_isInt _ hW
  have eR := wrapInt_of_isInt _ hR
  by_cases h3 : hostgroupsOk conf.Pxcluster
  · have hok := (SanityCheck_of_fieldsOk fs conf lg h1 h2 h3).1
    unfold hostgroupsOk at h3
    rw [eW, eR] at h3
    constructor
    · intro _
      omega
    · intro _
      rw [hok]
      simp [hp]
  · have hok := (SanityCheck_of_not_fieldsOk fs conf lg (fun h => h3 h.2.2)).1
    unfold hostgroupsOk at h3
    rw [eW, eR] at h3
    constructor
    · intro h
      rw [hok] at h
      cases h
    · intro h
      exfalso
      apply h3
      omega

/-- Witness of C3: hostgroups 0, 1 with backups 8000, 8001 are accepted, also
the negative pair -8000, -1 with backups 0, 7999; moving either backup
identifier by one is rejected. -/
theorem SanityCheck_hostgroup_offset_witness :
    (SanityCheck noPath sampleConf Logger.std).ok = true ∧
    (SanityCheck noPath
      (withCluster sampleConf
        { sampleConf.Pxcluster with HgW := -8000, HgR := -1, BckHgW := 0, BckHgR := 7999 })
      Logger.std).ok = true ∧
    (SanityCheck noPath
      (withCluster sampleConf { sampleConf.Pxcluster with BckHgW := 8001 })
      Logger.std).ok = false ∧
    (SanityCheck noPath
      (withCluster sampleConf { sampleConf.Pxcluster with BckHgR := 8000 })
      Logger.std).ok = false :=
  ⟨(SanityCheck_hostgroup_offset noPath sampleConf Logger.std (by decide) (by decide)
      (by decide) (by decide) (by decide)).2 ⟨by decide, by decide⟩,
   (SanityCheck_hostgroup_offset noPath
      (withCluster sampleConf
        { sampleConf.Pxcluster with HgW := -8000, HgR := -1, BckHgW := 0, BckHgR := 7999 })
      Logger.std (by decide) (by decide) (by decide) (by decide) (by decide)).2
      ⟨by decide, by decide⟩,
   by decide, by decide⟩

/-- With a non-empty lock path `SanityCheck` never consults the file system:
its whole result is the same in any two file system states. -/
theorem SanityCheck_nonempty_path (fs fs2 : String → Bool) (conf : Configuration)
    (lg : Logger) (hp : conf.Proxysql.LockFilePath ≠ "") :
    SanityCheck fs2 conf lg = SanityCheck fs conf lg := by
  unfold SanityCheck
  simp only [if_neg hp]

/-- C4, the claim fails: with a non-empty lock path that is not accessible
(only `/tmp` exists), `SanityCheck` accepts and the path of the validated
record is not accessible. -/
theorem SanityCheck_lockPath_counterexample :
    (SanityCheck onlyTmp (withLockFilePath sampleConf "/no/such/dir") Logger.std).ok = true ∧
    (SanityCheck onlyTmp (withLockFilePath sampleConf "/no/such/dir")
      Logger.std).conf.Proxysql.LockFilePath = "/no/such/dir" ∧
    onlyTmp (SanityCheck onlyTmp (withLockFilePath sampleConf "/no/such/dir")
      Logger.std).conf.Proxysql.LockFilePath = false := by
  decide

/-- C4 as amended: when `SanityCheck` accepts, the lock path afterwards is
non-empty; a path that was empty is now `/tmp` and `/tmp` is accessible; a
path that was non-empty is kept as configured and no accessibility test is
made on it: the call accepts it, with the same record and the same log, in
every file system state. -/
theorem SanityCheck_lockPath_after (fs : String → Bool) (conf : Configuration) (lg : Logger)
    (hok : (SanityCheck fs conf lg).ok = true) :
    (SanityCheck fs conf lg).conf.Proxysql.LockFilePath ≠ "" ∧
    (conf.Proxysql.LockFilePath = "" →
      (SanityCheck fs conf lg).conf.Proxysql.LockFilePath = "/tmp" ∧ fs "/tmp" = true) ∧
    (conf.Proxysql.LockFilePath ≠ "" →
      (SanityCheck fs conf lg).conf.Proxysql.LockFilePath = conf.Proxysql.LockFilePath ∧
      ∀ fs2 : String → Bool,
        SanityCheck fs2 conf lg = SanityCheck fs conf lg ∧
        (SanityCheck fs2 conf lg).ok = true) := by
  have hind : conf.Proxysql.LockFilePath ≠ "" → ∀ fs2 : String → Bool,
      SanityCheck fs2 conf lg = SanityCheck fs conf lg ∧
      (SanityCheck fs2 conf lg).ok = true := by
    intro hp fs2
    have e := SanityCheck_nonempty_path fs fs2 conf lg hp
    exact ⟨e, by rw [e]; exact hok⟩
  by_cases hf : singlePrimaryOk conf.Pxcluster ∧ writerReaderOk conf.Pxcluster ∧
      hostgroupsOk conf.Pxcluster
  · obtain ⟨e1, e2⟩ := SanityCheck_of_fieldsOk fs conf lg hf.1 hf.2.1 hf.2.2
    rw [e1] at hok
    by_cases hp : conf.Proxysql.LockFilePath = ""
    · refine ⟨?_, fun _ => ⟨?_, ?_⟩, fun h => absurd hp h⟩
      · rw [e2]
        simp [hp, withLockFilePath]
      · rw [e2]
        simp [hp, withLockFilePath]
      · simpa [hp] using hok
    · refine ⟨?_, fun h => absurd h hp, fun _ => ⟨?_, hind hp⟩⟩
      · rw [e2]
        simp [hp]
      · rw [e2]
        simp [hp]
  · have e1 := (SanityCheck_of_not_fieldsOk fs conf lg hf).1
    rw [e1] at hok
    cases hok

/-- Witness of C4 as amended: the sample configuration with an empty lock
path is accepted when `/tmp` exists, and the record then holds `/tmp`; with
the path `/no/such/dir` it is accepted when only `/tmp` exists and also when
nothing exists, and the path is kept. -/
theorem SanityCheck_lockPath_after_witness :
    (SanityCheck onlyTmp (withLockFilePath sampleConf "") Logger.std).ok = true ∧
    ((SanityCheck onlyTmp (withLockFilePath sampleConf "")
      Logger.std).conf.Proxysql.LockFilePath = "/tmp" ∧
    onlyTmp "/tmp" = true) ∧
    (SanityCheck onlyTmp (withLockFilePath sampleConf "/no/such/dir")
      Logger.std).conf.Proxysql.LockFilePath = "/no/such/dir" ∧
    (SanityCheck noPath (withLockFilePath sampleConf "/no/such/dir") Logger.std).ok = true :=
  ⟨by decide,
   (SanityCheck_lockPath_after onlyTmp (withLockFilePath sampleConf "") Logger.std
      (by decide)).2.1 (by decide),
   ((SanityCheck_lockPath_after onlyTmp (withLockFilePath sampleConf "/no/such/dir") Logger.std
      (by decide)).2.2 (by decide)).1,
   (((SanityCheck_lockPath_after onlyTmp (withLockFilePath sampleConf "/no/such/dir") Logger.std
      (by decide)).2.2 (by decide)).2 noPath).2⟩

/-- C5, the claim fails: an empty lock path with `SinglePrimary = true` and
`MaxNumWriters = 2` is rejected by the first test and the path stays empty. -/
theorem SanityCheck_repair_counterexample :
    (withLockFilePath (withCluster sampleConf { sampleConf.Pxcluster with MaxNumWriters := 2 })
      "").Proxysql.LockFilePath = "" ∧
    (SanityCheck onlyTmp
      (withLockFilePath (withCluster sampleConf { sampleConf.Pxcluster with MaxNumWriters := 2 })
        "") Logger.std).conf.Proxysql.LockFilePath = "" ∧
    (SanityCheck onlyTmp
      (withLockFilePath (withCluster sampleConf { sampleConf.Pxcluster with MaxNumWriters := 2 })
        "") Logger.std).conf.Proxysql.LockFilePath ≠ "/tmp" := by
  decide

/-- C5 as amended: for an empty lock path, when the three field tests pass
the path after `SanityCheck` is `/tmp`, whatever the call returns; when one of
them fails the path is left empty. -/
theorem SanityCheck_repair (fs : String → Bool) (conf : Configuration) (lg : Logger)
    (he : conf.Proxysql.LockFilePath = "") :
    ((singlePrimaryOk conf.Pxcluster ∧ writerReaderOk conf.Pxcluster ∧
        hostgroupsOk conf.Pxcluster) →
      (SanityCheck fs conf lg).conf.Proxysql.LockFilePath = "/tmp") ∧
    (¬ (singlePrimaryOk conf.Pxcluster ∧ writerReaderOk conf.Pxcluster ∧
        hostgroupsOk conf.Pxcluster) →
      (SanityCheck fs conf lg).conf.Proxysql.LockFilePath = "") := by
  constructor
  · intro hf
    rw [(SanityCheck_of_fieldsOk fs conf lg hf.1 hf.2.1 hf.2.2).2]
    simp [he, withLockFilePath]
  · intro hf
    rw [(SanityCheck_of_not_fieldsOk fs conf lg hf).2]
    exact he

/-- Witness of C5 as amended: the sample configuration with an empty lock path
ends with `/tmp`, both when `/tmp` exists (accepted) and when it does not
(rejected). -/
theorem SanityCheck_repair_witness :
    (SanityCheck onlyTmp (withLockFilePath sampleConf "") Logger.std).conf.Proxysql.LockFilePath
      = "/tmp" ∧
    (SanityCheck noPath (withLockFilePath sampleConf "") Logger.std).conf.Proxysql.LockFilePath
      = "/tmp" ∧
    (SanityCheck noPath (withLockFilePath sampleConf "") Logger.std).ok = false :=
  ⟨(SanityCheck_repair onlyTmp (withLockFilePath sampleConf "") Logger.std (by decide)).1
      (by decide),
   (SanityCheck_repair noPath (withLockFilePath sampleConf "") Logger.std (by decide)).1
      (by decide),
   by decide⟩

/-- C6: for an empty lock path and the three field tests passed, `SanityCheck`
accepts iff `CheckIfPathExists "/tmp"` holds: the accessibility of the repaired
path alone decides the result. -/
theorem SanityCheck_empty_path_result (fs : String → Bool) (conf : Configuration) (lg : Logger)
    (he : conf.Proxysql.LockFilePath = "")
    (h1 : singlePrimaryOk conf.Pxcluster) (h2 : writerReaderOk conf.Pxcluster)
    (h3 : hostgroupsOk conf.Pxcluster) :
    (SanityCheck fs conf lg).ok = true ↔ fs "/tmp" = true := by
  rw [(SanityCheck_of_fieldsOk fs conf lg h1 h2 h3).1]
  simp [he]

/-- Witness of C6: the sample configuration with an empty lock path is
accepted in a file system with `/tmp` and rejected in one without. -/
theorem SanityCheck_empty_path_result_witness :
    (SanityCheck onlyTmp (withLockFilePath sampleConf "") Logger.std).ok = true ∧
    ¬ (SanityCheck noPath (withLockFilePath sampleConf "") Logger.std).ok = true :=
  ⟨(SanityCheck_empty_path_result onlyTmp (withLockFilePath sampleConf "") Logger.std
      (by decide) (by decide) (by decide) (by decide)).2 (by decide),
   fun h => absurd ((SanityCheck_empty_path_result noPath (withLockFilePath sampleConf "")
      Logger.std (by decide) (by decide) (by decide) (by decide)).1 h) (by decide)⟩

/-! ## Facts about strings and the buffer -/

/-- Writing one byte is appending a one-character string. -/
theorem push_eq_append (s : String) (c : Char) : s.push c = s ++ String.singleton c := by
  apply String.ext
  simp [String.singleton]

/-- The `range` loop of `Format` appends the segments of the visited bindings,
in the order of the visit. -/
theorem foldl_writeField {V : Type} (Fprint : V → String) (visit : List (String × V))
    (b : String) :
    visit.foldl (writeField Fprint) b = b ++ String.join (visit.map (fieldSegment Fprint)) := by
  induction visit generalizing b with
  | nil => simp [String.join]
  | cons kv rest ih =>
    rw [List.foldl_cons, ih]
    apply String.ext
    simp [writeField, fieldSegment]

/-- The line written by `Format`, segment by segment: what was in the buffer,
the head up to the time stamp, the message segment, the separator, the field
segments in the order of the visit, and the newline. -/
theorem Format_eq {T V : Type} (upperTbl : Char → Char) (timeFormat : T → String → String)
    (Fprint : V → String) (f : LogFormat) (entry : Entry T V) (visit : List (String × V)) :
    Format upperTbl timeFormat Fprint f entry visit =
      .ok (entry.Buffer.getD "" ++
        lineHead upperTbl timeFormat f.TimestampFormat entry.Level entry.Time ++
        (if entry.Message ≠ "" then " - " ++ entry.Message else "") ++
        (if entry.Data.length > 0 then " || " else "") ++
        String.join (visit.map (fieldSegment Fprint)) ++ "\n") := by
  unfold Format
  simp only [foldl_writeField, push_eq_append]
  congr 1
  apply String.ext
  cases hb : entry.Buffer <;> by_cases hm : entry.Message = "" <;>
    by_cases hd : entry.Data.length > 0 <;>
    simp [lineHead, hm, hd, String.singleton]

/-- C7: for an entry with an empty or nil buffer, a non-empty message and
exactly one field `k -> v`, and the layout `2006-01-02 15:04:05`, `Format`
returns no error and exactly colour start, bracketed upper-case level, colour
reset, colon, time stamp, ` - `, message, ` || `, `k={v}, ` and a newline. -/
theorem Format_single_field {T V : Type} (upperTbl : Char → Char)
    (timeFormat : T → String → String) (Fprint : V → String) (f : LogFormat)
    (entry : Entry T V) (visit : List (String × V)) (k : String) (v : V)
    (hl : f.TimestampFormat = "2006-01-02 15:04:05")
    (hb : entry.Buffer = none ∨ entry.Buffer = some "")
    (hm : entry.Message ≠ "")
    (hd : entry.Data = [(k, v)])
    (hv : visit.Perm entry.Data) :
    Format upperTbl timeFormat Fprint f entry visit =
      .ok ("\x1b[" ++ Itoa (getColorByLevel entry.Level) ++ "m" ++ "[" ++
        ToUpper upperTbl entry.Level.String ++ "]" ++ "\x1b[0m" ++ ":" ++
        timeFormat entry.Time "2006-01-02 15:04:05" ++ " - " ++ entry.Message ++ " || " ++
        k ++ "=\x7b" ++ Fprint v ++ "\x7d, " ++ "\n") := by
  rw [Format_eq]
  rw [hd] at hv
  have hvis : visit = [(k, v)] := List.perm_singleton.mp hv
  congr 1
  apply String.ext
  rcases hb with hb | hb <;>
    simp [hb, hl, hm, hd, hvis, lineHead, fieldSegment]

/-- Witness of C7: level error, message `disk full`, field `node -> db1`. -/
theorem Format_single_field_witness :
    Format id sampleTimeFormat id { TimestampFormat := "2006-01-02 15:04:05" } sampleEntry
        [("node", "db1")] =
      .ok "\x1b[31m[ERROR]\x1b[0m:2021-03-04 05:06:07 - disk full || node=\x7bdb1\x7d, \n" :=
  Format_single_field id sampleTimeFormat id { TimestampFormat := "2006-01-02 15:04:05" }
    sampleEntry [("node", "db1")] "node" "db1" rfl (Or.inl rfl) (by decide) rfl
    (List.Perm.refl _)

/-- C8: with `pre` the line up to and including the message segment, an entry
without fields gives `pre` and the newline, with no separator and no field
segment; an entry with `n ≥ 1` fields gives `pre`, the separator ` || `, then
exactly `n` segments `key={value}, `, one per field of the entry, then the
newline, so that the line ends with `}, ` and the newline. -/
theorem Format_fields {T V : Type} (upperTbl : Char → Char)
    (timeFormat : T → String → String) (Fprint : V → String) (f : LogFormat)
    (entry : Entry T V) (visit : List (String × V)) (hv : visit.Perm entry.Data) :
    (entry.Data = [] →
      Format upperTbl timeFormat Fprint f entry visit =
        .ok (entry.Buffer.getD "" ++
          lineHead upperTbl timeFormat f.TimestampFormat entry.Level entry.Time ++
          (if entry.Message ≠ "" then " - " ++ entry.Message else "") ++ "\n")) ∧
    (entry.Data ≠ [] →
      ∃ segs : List String,
        segs.length = entry.Data.length ∧
        segs.Perm (entry.Data.map
          (fun kv => kv.1 ++ "=\x7b" ++ Fprint kv.2 ++ "\x7d, ")) ∧
        Format upperTbl timeFormat Fprint f entry visit =
          .ok (entry.Buffer.getD "" ++
            lineHead upperTbl timeFormat f.TimestampFormat entry.Level entry.Time ++
            (if entry.Message ≠ "" then " - " ++ entry.Message else "") ++ " || " ++
            String.join segs ++ "\n") ∧
        ∃ start : String,
          Format upperTbl timeFormat Fprint f entry visit = .ok (start ++ "\x7d, \n")) := by
  constructor
  · intro hd
    rw [hd] at hv
    have hvis : visit = [] := List.perm_nil.mp hv
    rw [Format_eq]
    congr 1
    apply String.ext
    simp [hd, hvis]
  · intro hd
    have hlen : visit.length = entry.Data.length := hv.length_eq
    have hpos : entry.Data.length > 0 := List.length_pos.mpr hd
    have hvne : visit ≠ [] := by
      intro h
      rw [h] at hlen
      simp at hlen
      omega
    refine ⟨visit.map (fieldSegment Fprint), ?_, ?_, ?_, ?_⟩
    · simp [hlen]
    · exact hv.map _
    · rw [Format_eq]
      simp [hpos]
    · obtain ⟨front, kv, hsplit⟩ : ∃ front kv, visit = front ++ [kv] :=
        ⟨visit.dropLast, visit.getLast hvne, (List.dropLast_append_getLast hvne).symm⟩
      refine ⟨entry.Buffer.getD "" ++
          lineHead upperTbl timeFormat f.TimestampFormat entry.Level entry.Time ++
          (if entry.Message ≠ "" then " - " ++ entry.Message else "") ++ " || " ++
          String.join (front.map (fieldSegment Fprint)) ++ kv.1 ++ "=\x7b" ++ Fprint kv.2, ?_⟩
      rw [Format_eq]
      congr 1
      apply String.ext
      simp [hpos, hsplit, fieldSegment]

/-- Witness of C8: two fields visited in the order `hg`, `node` give two
segments after the separator and the line ends with `}, `; no field gives
neither separator nor segment. -/
theorem Format_fields_witness :
    Format id sampleTimeFormat id { TimestampFormat := "2006-01-02 15:04:05" } twoFieldEntry
        [("hg", "100"), ("node", "db1")] =
      .ok "\x1b[33m[WARNING]\x1b[0m:2021-03-04 05:06:07 || hg=\x7b100\x7d, node=\x7bdb1\x7d, \n" ∧
    Format id sampleTimeFormat id { TimestampFormat := "2006-01-02 15:04:05" } bareEntry [] =
      .ok "\x1b[36m[INFO]\x1b[0m:2021-03-04 05:06:07\n" ∧
    ∃ segs : List String, segs.length = 2 ∧
      Format id sampleTimeFormat id { TimestampFormat := "2006-01-02 15:04:05" } twoFieldEntry
        [("hg", "100"), ("node", "db1")] =
      .ok ("\x1b[33m[WARNING]\x1b[0m:2021-03-04 05:06:07 || " ++ String.join segs ++ "\n") :=
  ⟨rfl,
   (Format_fields id sampleTimeFormat id { TimestampFormat := "2006-01-02 15:04:05" } bareEntry []
      (List.Perm.refl _)).1 rfl,
   by
     obtain ⟨segs, hlen, _, hfmt, _⟩ :=
       (Format_fields id sampleTimeFormat id { TimestampFormat := "2006-01-02 15:04:05" }
         twoFieldEntry [("hg", "100"), ("node", "db1")]
         (List.Perm.swap _ _ _)).2 (by decide)
     exact ⟨segs, hlen, hfmt⟩⟩

/-- C9: for an entry with an empty or nil buffer, the output is the line head
(colour start, bracketed level, colour reset, colon, time stamp) followed by a
rest that begins with ` - ` and the message iff the message is non-empty; the
rest is then message segment, fields and newline, and without a message it is
fields and newline only.  With no message and no fields the output is exactly
the head and the newline. -/
theorem Format_message_segment {T V : Type} (upperTbl : Char → Char)
    (timeFormat : T → String → String) (Fprint : V → String) (f : LogFormat)
    (entry : Entry T V) (visit : List (String × V))
    (hb : entry.Buffer = none ∨ entry.Buffer = some "")
    (hv : visit.Perm entry.Data) :
    ∃ rest : String,
      Format upperTbl timeFormat Fprint f entry visit =
        .ok ("\x1b[" ++ Itoa (getColorByLevel entry.Level) ++ "m[" ++
          ToUpper upperTbl entry.Level.String ++ "]" ++ "\x1b[0m:" ++
          timeFormat entry.Time f.TimestampFormat ++ rest) ∧
      (entry.Message ≠ "" ↔ ∃ r : String, rest = " - " ++ entry.Message ++ r) ∧
      (entry.Message ≠ "" →
        rest = " - " ++ entry.Message ++ (if entry.Data.length > 0 then " || " else "") ++
          String.join (visit.map (fieldSegment Fprint)) ++ "\n") ∧
      (entry.Message = "" →
        rest = (if entry.Data.length > 0 then " || " else "") ++
          String.join (visit.map (fieldSegment Fprint)) ++ "\n") ∧
      (entry.Message = "" → entry.Data = [] → rest = "\n") := by
  refine ⟨(if entry.Message ≠ "" then " - " ++ entry.Message else "") ++
      (if entry.Data.length > 0 then " || " else "") ++
      String.join (visit.map (fieldSegment Fprint)) ++ "\n", ?_, ?_, ?_, ?_, ?_⟩
  · rw [Format_eq]
    congr 1
    apply String.ext
    rcases hb with hb | hb <;> simp [hb, lineHead]
  · constructor
    · intro hm
      refine ⟨(if entry.Data.length > 0 then " || " else "") ++
        String.join (visit.map (fieldSegment Fprint)) ++ "\n", ?_⟩
      apply String.ext
      simp [hm]
    · rintro ⟨r, hr⟩ hm
      have hd := congrArg String.data hr
      by_cases hpos : entry.Data.length > 0
      · simp [hm, hpos] at hd
      · have hnil : entry.Data = [] := by
          cases hD : entry.Data with
          | nil => rfl
          | cons a l => simp [hD] at hpos
        rw [hnil] at hv
        have hvis : visit = [] := List.perm_nil.mp hv
        simp [hm, hnil, hvis] at hd
  · intro hm
    apply String.ext
    simp [hm]
  · intro hm
    apply String.ext
    simp [hm]
  · intro hm hd
    rw [hd] at hv
    have hvis : visit = [] := List.perm_nil.mp hv
    apply String.ext
    simp [hm, hd, hvis]

/-- Witness of C9: level info, no message, no fields. -/
theorem Format_message_segment_witness :
    ∃ rest : String,
      Format id sampleTimeFormat id { TimestampFormat := "2006-01-02 15:04:05" } bareEntry [] =
        .ok ("\x1b[36m[INFO]\x1b[0m:2021-03-04 05:06:07" ++ rest) ∧ rest = "\n" := by
  obtain ⟨rest, h1, _, _, _, h5⟩ :=
    Format_message_segment id sampleTimeFormat id { TimestampFormat := "2006-01-02 15:04:05" }
      bareEntry [] (Or.inl rfl) (List.Perm.refl _)
  exact ⟨rest, h1, h5 rfl rfl⟩

/-- Emission does not change the threshold. -/
theorem Log_Level (lg : Logger) (lvl : Level) (msg : String) :
    (lg.Log lvl msg).Level = lg.Level := by
  unfold Logger.Log
  split <;> rfl

/-- On the 128 ASCII code points, upper-casing keeps a rune in ASCII and does
not change its lower case. -/
theorem ascii_lower_upper_nat : ∀ n : Fin 128,
    (asciiUpper (Char.ofNat n.val)).toNat < 128 ∧
    asciiLower (asciiUpper (Char.ofNat n.val)) = asciiLower (Char.ofNat n.val) := by
  decide

/-- For an ASCII rune, lower case after upper case is lower case. -/
theorem lowerRune_upperRune (tbl tbl2 : Char → Char) (c : Char) (hc : c.toNat < 128) :
    lowerRune tbl (upperRune tbl2 c) = lowerRune tbl c := by
  have h := ascii_lower_upper_nat ⟨c.toNat, hc⟩
  simp only [Char.ofNat_toNat] at h
  unfold lowerRune upperRune
  simp [hc, h.1, h.2]

/-- For an ASCII string, `ToLower` after `ToUpper` is `ToLower`. -/
theorem ToLower_ToUpper (tbl tbl2 : Char → Char) (s : String)
    (hs : ∀ c ∈ s.data, c.toNat < 128) : ToLower tbl (ToUpper tbl2 s) = ToLower tbl s := by
  unfold ToLower ToUpper
  apply String.ext
  simp only [List.map_map]
  apply List.map_congr_left
  intro c hc
  exact lowerRune_upperRune tbl tbl2 c (hs c hc)

/-- The threshold after a successful `InitLog`, by the lower-cased level
name. -/
theorem InitLog_Level_of_ok (tbl : Char → Char) (OpenFile : String → Option String)
    (config : Configuration) (lg : Logger)
    (hok : (InitLog tbl OpenFile config lg).ok = true) :
    (InitLog tbl OpenFile config lg).log.Level =
      (if ToLower tbl config.Global.LogLevel = "debug" then Level.DebugLevel
       else if ToLower tbl config.Global.LogLevel = "info" then Level.InfoLevel
       else if ToLower tbl config.Global.LogLevel = "warning" then Level.WarnLevel
       else Level.ErrorLevel) := by
  unfold InitLog at hok ⊢
  simp only at hok ⊢
  split at hok
  · cases hok
  · simp only
    by_cases h1 : ToLower tbl config.Global.LogLevel = "debug"
    · simp [h1, Logger.SetLevel, Logger.Debug, Log_Level]
    · by_cases h2 : ToLower tbl config.Global.LogLevel = "info"
      · simp [h1, h2, Logger.SetLevel]
      · by_cases h3 : ToLower tbl config.Global.LogLevel = "warning"
        · simp [h1, h2, h3, Logger.SetLevel]
        · by_cases h4 : ToLower tbl config.Global.LogLevel = "error"
          · simp [h4, Logger.SetLevel]
          · simp [h1, h2, h3, h4, Logger.SetLevel]

/-- On an ASCII string `ToLower` is the rune-wise ASCII lower case, whatever
the Unicode table. -/
theorem ToLower_ascii (tbl : Char → Char) (s : String)
    (hs : ∀ c ∈ s.data, c.toNat < 128) : ToLower tbl s = ⟨s.data.map asciiLower⟩ := by
  unfold ToLower
  apply String.ext
  apply List.map_congr_left
  intro c hc
  unfold lowerRune
  rw [if_pos (hs c hc)]

/-- C10, the claim fails: with the entries of Go's case tables at the dotless
i, the level name `ınfo` resolves to the error threshold while its upper-cased
form `INFO` resolves to info. -/
theorem InitLog_recasing_counterexample :
    ToUpper dotlessUpper "ınfo" = "INFO" ∧
    ToLower dotlessLower "ınfo" = "ınfo" ∧
    (InitLog dotlessLower opensAll (levelConf "ınfo") Logger.std).ok = true ∧
    (InitLog dotlessLower opensAll (levelConf "ınfo") Logger.std).log.Level
      = Level.ErrorLevel ∧
    (InitLog dotlessLower opensAll (levelConf "INFO") Logger.std).ok = true ∧
    (InitLog dotlessLower opensAll (levelConf "INFO") Logger.std).log.Level
      = Level.InfoLevel := by
  decide

/-- C10 as amended: after a successful `InitLog` the threshold is debug, info
or warning when the lower-cased level name is `debug`, `info` or `warning`,
and error in every other case.  The threshold depends on the lower-cased name
only: a level name with the same lower-case form resolves alike, and so do,
for an ASCII name, its upper-cased form and every ASCII name that differs
from it in letter case only.  Under the warning threshold a debug emission
leaves the logger unchanged and a warning emission is recorded. -/
theorem InitLog_threshold (tbl tbl2 : Char → Char) (OpenFile : String → Option String)
    (config : Configuration) (lg : Logger)
    (hok : (InitLog tbl OpenFile config lg).ok = true) :
    (ToLower tbl config.Global.LogLevel = "debug" →
      (InitLog tbl OpenFile config lg).log.Level = Level.DebugLevel) ∧
    (ToLower tbl config.Global.LogLevel = "info" →
      (InitLog tbl OpenFile config lg).log.Level = Level.InfoLevel) ∧
    (ToLower tbl config.Global.LogLevel = "warning" →
      (InitLog tbl OpenFile config lg).log.Level = Level.WarnLevel) ∧
    (ToLower tbl config.Global.LogLevel ≠ "debug" →
      ToLower tbl config.Global.LogLevel ≠ "info" →
      ToLower tbl config.Global.LogLevel ≠ "warning" →
      (InitLog tbl OpenFile config lg).log.Level = Level.ErrorLevel) ∧
    (∀ (config2 : Configuration) (lg2 : Logger),
      ToLower tbl config2.Global.LogLevel = ToLower tbl config.Global.LogLevel →
      (InitLog tbl OpenFile config2 lg2).ok = true →
      (InitLog tbl OpenFile config2 lg2).log.Level = (InitLog tbl OpenFile config lg).log.Level) ∧
    (∀ (config2 : Configuration) (lg2 : Logger),
      (∀ c ∈ config.Global.LogLevel.data, c.toNat < 128) →
      config2.Global.LogLevel = ToUpper tbl2 config.Global.LogLevel →
      (InitLog tbl OpenFile config2 lg2).ok = true →
      (InitLog tbl OpenFile config2 lg2).log.Level = (InitLog tbl OpenFile config lg).log.Level) ∧
    (ToLower tbl config.Global.LogLevel = "warning" → ∀ msg : String,
      (InitLog tbl OpenFile config lg).log.Debug msg = (InitLog tbl OpenFile config lg).log ∧
      ((InitLog tbl OpenFile config lg).log.Warn msg).Records =
        (InitLog tbl OpenFile config lg).log.Records ++
          [{ Level := Level.WarnLevel, Message := msg }]) ∧
    (∀ (config2 : Configuration) (lg2 : Logger),
      (∀ c ∈ config.Global.LogLevel.data, c.toNat < 128) →
      (∀ c ∈ config2.Global.LogLevel.data, c.toNat < 128) →
      config2.Global.LogLevel.data.map asciiLower = config.Global.LogLevel.data.map asciiLower →
      (InitLog tbl OpenFile config2 lg2).ok = true →
      (InitLog tbl OpenFile config2 lg2).log.Level =
        (InitLog tbl OpenFile config lg).log.Level) := by
  have hL := InitLog_Level_of_ok tbl OpenFile config lg hok
  have hsame : ∀ (config2 : Configuration) (lg2 : Logger),
      ToLower tbl config2.Global.LogLevel = ToLower tbl config.Global.LogLevel →
      (InitLog tbl OpenFile config2 lg2).ok = true →
      (InitLog tbl OpenFile config2 lg2).log.Level =
        (InitLog tbl OpenFile config lg).log.Level := by
    intro config2 lg2 he hok2
    rw [hL, InitLog_Level_of_ok tbl OpenFile config2 lg2 hok2, he]
  refine ⟨?_, ?_, ?_, ?_, hsame, ?_, ?_, ?_⟩
  rotate_right
  · intro config2 lg2 ha ha2 he hok2
    apply hsame config2 lg2 _ hok2
    rw [ToLower_ascii tbl _ ha, ToLower_ascii tbl _ ha2, he]
  · intro h
    rw [hL, if_pos h]
  · intro h
    rw [hL, h]
    decide
  · intro h
    rw [hL, h]
    decide
  · intro h1 h2 h3
    rw [hL, if_neg h1, if_neg h2, if_neg h3]
  · intro config2 lg2 hascii he hok2
    apply hsame config2 lg2 _ hok2
    rw [he]
    exact ToLower_ToUpper tbl tbl2 _ hascii
  · intro h msg
    have hW : (InitLog tbl OpenFile config lg).log.Level = Level.WarnLevel := by
      rw [hL, h]
      decide
    constructor
    · simp [Logger.Debug, Logger.Log, Logger.IsLevelEnabled, hW, Level.toNat]
    · simp [Logger.Warn, Logger.Log, Logger.IsLevelEnabled, hW, Level.toNat]

/-- Witness of C10: the name `Warning` gives the warning threshold, under
which a debug emission is suppressed and a warning emission is recorded; the
name `WARNING` gives the same threshold, and the empty name and an unknown
name give error. -/
theorem InitLog_threshold_witness :
    (InitLog id opensAll (levelConf "Warning") Logger.std).ok = true ∧
    (InitLog id opensAll (levelConf "Warning") Logger.std).log.Level = Level.WarnLevel ∧
    ((InitLog id opensAll (levelConf "Warning") Logger.std).log.Debug "probe").Records = [] ∧
    ((InitLog id opensAll (levelConf "Warning") Logger.std).log.Warn "probe").Records =
      [{ Level := Level.WarnLevel, Message := "probe" }] ∧
    (InitLog id opensAll (levelConf "WARNING") Logger.std).log.Level = Level.WarnLevel ∧
    (InitLog id opensAll (levelConf "") Logger.std).log.Level = Level.ErrorLevel ∧
    (InitLog id opensAll (levelConf "verbose") Logger.std).log.Level = Level.ErrorLevel :=
  ⟨by decide,
   (InitLog_threshold id id opensAll (levelConf "Warning") Logger.std (by decide)).2.2.1
     (by decide),
   by decide, by decide, by decide,
   (InitLog_threshold id id opensAll (levelConf "") Logger.std (by decide)).2.2.2.1
     (by decide) (by decide) (by decide),
   (InitLog_threshold id id opensAll (levelConf "verbose") Logger.std (by decide)).2.2.2.1
     (by decide) (by decide) (by decide)⟩

/-! ## Colours -/

/-- C11, the claim fails: the code for the debug level is 34, not 37. -/
theorem getColorByLevel_debug_counterexample :
    getColorByLevel Level.DebugLevel = 34 ∧ getColorByLevel Level.DebugLevel ≠ 37 := by
  decide

/-- C11 as amended: `getColorByLevel` gives 34 (the value of `colorGray` in the
file) for debug, 33 for warning, 31 for error, 35 for panic and for fatal,
and 36 for every other level (info and trace); 36 differs from the other
four codes. -/
theorem getColorByLevel_table :
    (∀ l : Level, getColorByLevel l =
      (if l = Level.DebugLevel then 34
       else if l = Level.WarnLevel then 33
       else if l = Level.ErrorLevel then 31
       else if l = Level.PanicLevel ∨ l = Level.FatalLevel then 35
       else 36)) ∧
    getColorByLevel Level.InfoLevel = 36 ∧ getColorByLevel Level.TraceLevel = 36 ∧
    colorGray = 34 ∧
    (36 : Int) ≠ 34 ∧ (36 : Int) ≠ 33 ∧ (36 : Int) ≠ 31 ∧ (36 : Int) ≠ 35 := by
  refine ⟨?_, by decide, by decide, by decide, by decide, by decide, by decide, by decide⟩
  intro l
  cases l <;> decide

/-! ## Frame, wrap-around and repetition of `SanityCheck` -/

/-- C16: `SanityCheck` changes nothing of the configuration but the lock
path: the cluster section, the scheduler section and every other field of the
proxy section are as before, and the lock path is either unchanged or was
empty and is now `/tmp`. -/
theorem SanityCheck_frame (fs : String → Bool) (conf : Configuration) (lg : Logger) :
    (SanityCheck fs conf lg).conf.Pxcluster = conf.Pxcluster ∧
    (SanityCheck fs conf lg).conf.Global = conf.Global ∧
    (SanityCheck fs conf lg).conf.Proxysql.Host = conf.Proxysql.Host ∧
    (SanityCheck fs conf lg).conf.Proxysql.Password = conf.Proxysql.Password ∧
    (SanityCheck fs conf lg).conf.Proxysql.Port = conf.Proxysql.Port ∧
    (SanityCheck fs conf lg).conf.Proxysql.User = conf.Proxysql.User ∧
    (SanityCheck fs conf lg).conf.Proxysql.Clustered = conf.Proxysql.Clustered ∧
    ((SanityCheck fs conf lg).conf.Proxysql.LockFilePath = conf.Proxysql.LockFilePath ∨
      (conf.Proxysql.LockFilePath = "" ∧
        (SanityCheck fs conf lg).conf.Proxysql.LockFilePath = "/tmp")) := by
  by_cases hf : singlePrimaryOk conf.Pxcluster ∧ writerReaderOk conf.Pxcluster ∧
      hostgroupsOk conf.Pxcluster
  · rw [(SanityCheck_of_fieldsOk fs conf lg hf.1 hf.2.1 hf.2.2).2]
    by_cases hp : conf.Proxysql.LockFilePath = ""
    · simp [hp, withLockFilePath]
    · simp [hp]
  · rw [(SanityCheck_of_not_fieldsOk fs conf lg hf).2]
    simp

/-- C19, the claim fails: with `HgW` the largest Go `int` the sum `HgW + 8000`
wraps, the configuration whose backup is the wrapped value is accepted, and
that backup identifier is not `HgW + 8000` and is smaller than `HgW`. -/
theorem SanityCheck_wrap_counterexample :
    isInt wrapConf.Pxcluster.HgW ∧ isInt wrapConf.Pxcluster.BckHgW ∧
    isInt wrapConf.Pxcluster.HgR ∧ isInt wrapConf.Pxcluster.BckHgR ∧
    (SanityCheck onlyTmp wrapConf Logger.std).ok = true ∧
    wrapConf.Pxcluster.BckHgW ≠ wrapConf.Pxcluster.HgW + 8000 ∧
    wrapConf.Pxcluster.BckHgW < wrapConf.Pxcluster.HgW := by
  decide

/-- C19 as amended: an accepted configuration has each backup identifier equal
to the Go value of primary plus 8000; when `HgW + 8000` (resp. `HgR + 8000`)
is representable this is the exact sum and the backup identifier is strictly
greater than the primary one. -/
theorem SanityCheck_offset_exact (fs : String → Bool) (conf : Configuration) (lg : Logger)
    (hok : (SanityCheck fs conf lg).ok = true) :
    conf.Pxcluster.BckHgW = wrapInt (conf.Pxcluster.HgW + 8000) ∧
    conf.Pxcluster.BckHgR = wrapInt (conf.Pxcluster.HgR + 8000) ∧
    (isInt (conf.Pxcluster.HgW + 8000) →
      conf.Pxcluster.BckHgW = conf.Pxcluster.HgW + 8000 ∧
      conf.Pxcluster.HgW < conf.Pxcluster.BckHgW) ∧
    (isInt (conf.Pxcluster.HgR + 8000) →
      conf.Pxcluster.BckHgR = conf.Pxcluster.HgR + 8000 ∧
      conf.Pxcluster.HgR < conf.Pxcluster.BckHgR) := by
  have h3 : hostgroupsOk conf.Pxcluster := by
    by_contra h3
    have := (SanityCheck_of_not_fieldsOk fs conf lg (fun h => h3 h.2.2)).1
    rw [this] at hok
    cases hok
  unfold hostgroupsOk at h3
  refine ⟨h3.1.symm, h3.2.symm, ?_, ?_⟩
  · intro hW
    have e := wrapInt_of_isInt _ hW
    rw [e] at h3
    omega
  · intro hR
    have e := wrapInt_of_isInt _ hR
    rw [e] at h3
    omega

/-- Witness of C19 as amended: the accepted sample configuration has backups
8000 and 8001 above the primaries 0 and 1. -/
theorem SanityCheck_offset_exact_witness :
    (SanityCheck onlyTmp sampleConf Logger.std).ok = true ∧
    sampleConf.Pxcluster.BckHgW = sampleConf.Pxcluster.HgW + 8000 ∧
    sampleConf.Pxcluster.HgW < sampleConf.Pxcluster.BckHgW :=
  ⟨by decide,
   (SanityCheck_offset_exact onlyTmp sampleConf Logger.std (by decide)).2.2.1 (by decide)⟩

/-- C20, the claim fails: with an empty lock path and `/tmp` not accessible
the first run rejects and leaves `/tmp` in the record, and a second run on
that record accepts. -/
theorem SanityCheck_twice_counterexample :
    (SanityCheck noPath (withLockFilePath sampleConf "") Logger.std).ok = false ∧
    (SanityCheck noPath
      (SanityCheck noPath (withLockFilePath sampleConf "") Logger.std).conf
      Logger.std).ok = true := by
  decide

/-- C20 as amended: in a fixed file system state a second run of `SanityCheck`
on the record left by the first run leaves that record unchanged; a record
accepted by the first run is accepted by the second; and the two results are
the same whenever the first run did not reject at the lock path test (empty
path, field tests passed, `/tmp` not accessible). -/
theorem SanityCheck_twice (fs : String → Bool) (conf : Configuration) (lg lg2 : Logger) :
    (SanityCheck fs (SanityCheck fs conf lg).conf lg2).conf = (SanityCheck fs conf lg).conf ∧
    ((SanityCheck fs conf lg).ok = true →
      (SanityCheck fs (SanityCheck fs conf lg).conf lg2).ok = true) ∧
    (¬ (conf.Proxysql.LockFilePath = "" ∧ singlePrimaryOk conf.Pxcluster ∧
        writerReaderOk conf.Pxcluster ∧ hostgroupsOk conf.Pxcluster ∧ fs "/tmp" = false) →
      (SanityCheck fs (SanityCheck fs conf lg).conf lg2).ok = (SanityCheck fs conf lg).ok) := by
  by_cases hf : singlePrimaryOk conf.Pxcluster ∧ writerReaderOk conf.Pxcluster ∧
      hostgroupsOk conf.Pxcluster
  · obtain ⟨e1, e2⟩ := SanityCheck_of_fieldsOk fs conf lg hf.1 hf.2.1 hf.2.2
    by_cases hp : conf.Proxysql.LockFilePath = ""
    · have hc : (SanityCheck fs conf lg).conf = withLockFilePath conf "/tmp" := by
        rw [e2, if_pos hp]
      have hne : (withLockFilePath conf "/tmp").Proxysql.LockFilePath ≠ "" := by
        simp [withLockFilePath]
      obtain ⟨f1, f2⟩ := SanityCheck_of_fieldsOk fs (withLockFilePath conf "/tmp") lg2
        hf.1 hf.2.1 hf.2.2
      rw [hc, f1, f2, e1]
      simp [hp, hne]
      intro h
      exact h hf.1 hf.2.1 hf.2.2
    · have hc : (SanityCheck fs conf lg).conf = conf := by
        rw [e2, if_neg hp]
      obtain ⟨f1, f2⟩ := SanityCheck_of_fieldsOk fs conf lg2 hf.1 hf.2.1 hf.2.2
      rw [hc, f1, f2, e1]
      simp [hp]
  · obtain ⟨e1, e2⟩ := SanityCheck_of_not_fieldsOk fs conf lg hf
    obtain ⟨f1, f2⟩ := SanityCheck_of_not_fieldsOk fs conf lg2 hf
    rw [e2, f1, f2, e1]
    simp

/-- Witness of C20 as amended: the accepted sample configuration, also with
an empty lock path when `/tmp` exists, is accepted again and left unchanged. -/
theorem SanityCheck_twice_witness :
    (SanityCheck onlyTmp (withLockFilePath sampleConf "") Logger.std).ok = true ∧
    (SanityCheck onlyTmp
      (SanityCheck onlyTmp (withLockFilePath sampleConf "") Logger.std).conf
      Logger.std).ok = true ∧
    (SanityCheck onlyTmp
      (SanityCheck onlyTmp (withLockFilePath sampleConf "") Logger.std).conf
      Logger.std).conf.Proxysql.LockFilePath = "/tmp" :=
  ⟨by decide,
   (SanityCheck_twice onlyTmp (withLockFilePath sampleConf "") Logger.std Logger.std).2.1
     (by decide),
   by decide⟩

/-! ## Diagnostics of `SanityCheck` -/

/-- With the error level enabled, `log.Error` appends one error record. -/
theorem Error_Records (lg : Logger) (msg : String)
    (hE : lg.IsLevelEnabled Level.ErrorLevel = true) :
    (lg.Error msg).Records = lg.Records ++ [{ Level := Level.ErrorLevel, Message := msg }] := by
  simp [Logger.Error, Logger.Log, hE]

/-- A warning appends at most one record, of level warning, and keeps the
level gate. -/
theorem Warn_Records (lg : Logger) (msg : String) :
    (∃ ws : List Record, (lg.Warn msg).Records = lg.Records ++ ws ∧ errorsOf ws = []) ∧
    (lg.Warn msg).IsLevelEnabled Level.ErrorLevel = lg.IsLevelEnabled Level.ErrorLevel := by
  unfold Logger.Warn Logger.Log
  split
  · exact ⟨⟨[{ Level := Level.WarnLevel, Message := msg }], rfl, by simp [errorsOf]⟩, rfl⟩
  · exact ⟨⟨[], by simp, by simp [errorsOf]⟩, rfl⟩

/-- The logger after `SanityCheck`, by the first test that fails. -/
theorem SanityCheck_log (fs : String → Bool) (conf : Configuration) (lg : Logger) :
    (SanityCheck fs conf lg).log =
      (if ¬ singlePrimaryOk conf.Pxcluster then lg.Error singlePrimaryMessage
       else if ¬ writerReaderOk conf.Pxcluster then lg.Error writerReaderMessage
       else if ¬ hostgroupsOk conf.Pxcluster then lg.Error (hgMessage conf.Pxcluster)
       else if conf.Proxysql.LockFilePath = "" then
         (if fs "/tmp" = true then
            lg.Warn ("LockFilePath is invalid. Currently set to: |" ++
              conf.Proxysql.LockFilePath ++ "|  I will set to /tmp/ ")
          else
            (lg.Warn ("LockFilePath is invalid. Currently set to: |" ++
              conf.Proxysql.LockFilePath ++ "|  I will set to /tmp/ ")).Error lockPathMessage)
       else lg) := by
  by_cases h1 : singlePrimaryOk conf.Pxcluster
  · have c1 := (cond1_false_iff _).2 h1
    by_cases h2 : writerReaderOk conf.Pxcluster
    · have c2 := (cond2_false_iff _).2 h2
      by_cases h3 : hostgroupsOk conf.Pxcluster
      · have c3 := (cond3_false_iff _).2 h3
        unfold SanityCheck
        rw [c1, c2, c3]
        by_cases hp : conf.Proxysql.LockFilePath = ""
        · cases hfs : fs "/tmp" <;> simp [h1, h2, h3, hp, hfs, lockPathMessage]
        · simp [h1, h2, h3, hp]
      · have c3 : (decide (wrapInt (conf.Pxcluster.HgW + 8000) ≠ conf.Pxcluster.BckHgW) ||
            decide (wrapInt (conf.Pxcluster.HgR + 8000) ≠ conf.Pxcluster.BckHgR)) = true := by
          rw [← Bool.not_eq_false, cond3_false_iff]
          exact h3
        unfold SanityCheck
        rw [c1, c2, c3]
        simp [h1, h2, h3]
    · have c2 : (decide (conf.Pxcluster.WriterIsAlsoReader ≠ 1) &&
          (decide (conf.Pxcluster.MaxWriters > 1) || !conf.Pxcluster.SinglePrimary)) = true := by
        rw [← Bool.not_eq_false, cond2_false_iff]
        exact h2
      unfold SanityCheck
      rw [c1, c2]
      simp [h1, h2, writerReaderMessage]
  · have c1 : (decide (conf.Pxcluster.MaxNumWriters > 1) && conf.Pxcluster.SinglePrimary)
        = true := by
      rw [← Bool.not_eq_false, cond1_false_iff]
      exact h1
    unfold SanityCheck
    rw [c1]
    simp [h1, singlePrimaryMessage]

/-- The result of `SanityCheck` is rejection exactly when a field test fails
or the path is empty and `/tmp` is not accessible. -/
theorem SanityCheck_ok_false_iff (fs : String → Bool) (conf : Configuration) (lg : Logger) :
    (SanityCheck fs conf lg).ok = false ↔
      (¬ (singlePrimaryOk conf.Pxcluster ∧ writerReaderOk conf.Pxcluster ∧
          hostgroupsOk conf.Pxcluster) ∨
       (conf.Proxysql.LockFilePath = "" ∧ fs "/tmp" = false)) := by
  by_cases hf : singlePrimaryOk conf.Pxcluster ∧ writerReaderOk conf.Pxcluster ∧
      hostgroupsOk conf.Pxcluster
  · rw [(SanityCheck_of_fieldsOk fs conf lg hf.1 hf.2.1 hf.2.2).1]
    by_cases hp : conf.Proxysql.LockFilePath = "" <;> simp [hf, hp]
  · rw [(SanityCheck_of_not_fieldsOk fs conf lg hf).1]
    simp [hf]

/-- C18, the claim fails: under the fatal threshold a configuration with
`SinglePrimary = true` and `MaxNumWriters = 2` is rejected and no record at
all is emitted, so no error-level diagnostic either. -/
theorem SanityCheck_silent_counterexample :
    fatalLogger.IsLevelEnabled Level.ErrorLevel = false ∧
    (SanityCheck onlyTmp
      (withCluster sampleConf { sampleConf.Pxcluster with MaxNumWriters := 2 })
      fatalLogger).ok = false ∧
    (SanityCheck onlyTmp
      (withCluster sampleConf { sampleConf.Pxcluster with MaxNumWriters := 2 })
      fatalLogger).log.Records = [] ∧
    errorsOf (SanityCheck onlyTmp
      (withCluster sampleConf { sampleConf.Pxcluster with MaxNumWriters := 2 })
      fatalLogger).log.Records = [] := by
  decide

/-- C18 as amended: with the error level enabled, the records that
`SanityCheck` adds hold no error record when it accepts, and exactly one when
it rejects: the diagnostic of the first test, in the order single primary,
writer is also reader, hostgroup offset, lock path, that the configuration
fails. -/
theorem SanityCheck_first_failure (fs : String → Bool) (conf : Configuration) (lg : Logger)
    (hE : lg.IsLevelEnabled Level.ErrorLevel = true) :
    ∃ added : List Record,
      (SanityCheck fs conf lg).log.Records = lg.Records ++ added ∧
      ((SanityCheck fs conf lg).ok = true → errorsOf added = []) ∧
      ((SanityCheck fs conf lg).ok = false →
        ∃ d : String,
          errorsOf added = [{ Level := Level.ErrorLevel, Message := d }] ∧
          (¬ singlePrimaryOk conf.Pxcluster → d = singlePrimaryMessage) ∧
          (singlePrimaryOk conf.Pxcluster → ¬ writerReaderOk conf.Pxcluster →
            d = writerReaderMessage) ∧
          (singlePrimaryOk conf.Pxcluster → writerReaderOk conf.Pxcluster →
            ¬ hostgroupsOk conf.Pxcluster → d = hgMessage conf.Pxcluster) ∧
          (singlePrimaryOk conf.Pxcluster → writerReaderOk conf.Pxcluster →
            hostgroupsOk conf.Pxcluster → d = lockPathMessage)) := by
  have hlog := SanityCheck_log fs conf lg
  have hok := SanityCheck_ok_false_iff fs conf lg
  by_cases h1 : singlePrimaryOk conf.Pxcluster
  · by_cases h2 : writerReaderOk conf.Pxcluster
    · by_cases h3 : hostgroupsOk conf.Pxcluster
      · by_cases hp : conf.Proxysql.LockFilePath = ""
        · obtain ⟨⟨ws, hws, hwe⟩, hgate⟩ := Warn_Records lg
            ("LockFilePath is invalid. Currently set to: |" ++
              conf.Proxysql.LockFilePath ++ "|  I will set to /tmp/ ")
          cases hfs : fs "/tmp"
          · refine ⟨ws ++ [{ Level := Level.ErrorLevel, Message := lockPathMessage }], ?_, ?_, ?_⟩
            · rw [hlog, if_neg (not_not.mpr h1), if_neg (not_not.mpr h2),
                if_neg (not_not.mpr h3), if_pos hp, if_neg (by simp [hfs]),
                Error_Records _ _ (by rw [hgate]; exact hE), hws, List.append_assoc]
            · intro h
              have : (SanityCheck fs conf lg).ok = false := hok.2 (Or.inr ⟨hp, hfs⟩)
              rw [this] at h
              cases h
            · intro _
              refine ⟨lockPathMessage, ?_, ?_, ?_, ?_, ?_⟩
              · unfold errorsOf at hwe ⊢
                rw [List.filter_append, hwe]
                simp
              · intro h
                exact absurd h1 h
              · intro _ h
                exact absurd h2 h
              · intro _ _ h
                exact absurd h3 h
              · intro _ _ _
                rfl
          · refine ⟨ws, ?_, fun _ => hwe, ?_⟩
            · rw [hlog, if_neg (not_not.mpr h1), if_neg (not_not.mpr h2),
                if_neg (not_not.mpr h3), if_pos hp, if_pos hfs, hws]
            · intro h
              have := hok.1 h
              simp [h1, h2, h3, hfs] at this
        · refine ⟨[], ?_, fun _ => by simp [errorsOf], ?_⟩
          · rw [hlog]
            simp [h1, h2, h3, hp]
          · intro h
            have := hok.1 h
            simp [h1, h2, h3, hp] at this
      · refine ⟨[{ Level := Level.ErrorLevel, Message := hgMessage conf.Pxcluster }], ?_, ?_, ?_⟩
        · rw [hlog]
          simp only [h1, h2, h3, not_true_eq_false, not_false_eq_true, if_false, if_true]
          exact Error_Records _ _ hE
        · intro h
          have : (SanityCheck fs conf lg).ok = false := hok.2 (Or.inl (fun hf => h3 hf.2.2))
          rw [this] at h
          cases h
        · intro _
          exact ⟨_, by simp [errorsOf], fun h => absurd h1 h, fun _ h => absurd h2 h,
            fun _ _ _ => rfl, fun _ _ h => absurd h h3⟩
    · refine ⟨[{ Level := Level.ErrorLevel, Message := writerReaderMessage }], ?_, ?_, ?_⟩
      · rw [hlog]
        simp only [h1, h2, not_true_eq_false, not_false_eq_true, if_false, if_true]
        exact Error_Records _ _ hE
      · intro h
        have : (SanityCheck fs conf lg).ok = false := hok.2 (Or.inl (fun hf => h2 hf.2.1))
        rw [this] at h
        cases h
      · intro _
        exact ⟨_, by simp [errorsOf], fun h => absurd h1 h, fun _ _ => rfl,
          fun _ h => absurd h h2, fun _ h => absurd h h2⟩
  · refine ⟨[{ Level := Level.ErrorLevel, Message := singlePrimaryMessage }], ?_, ?_, ?_⟩
    · rw [hlog]
      simp only [h1, not_false_eq_true, if_true]
      exact Error_Records _ _ hE
    · intro h
      have : (SanityCheck fs conf lg).ok = false := hok.2 (Or.inl (fun hf => h1 hf.1))
      rw [this] at h
      cases h
    · intro _
      exact ⟨_, by simp [errorsOf], fun _ => rfl, fun h => absurd h h1,
        fun h => absurd h h1, fun h => absurd h h1⟩

/-- Witness of C18: `SinglePrimary = true`, `MaxNumWriters = 2` and
mismatching hostgroups emit the single-primary diagnostic only; the accepted
sample configuration emits nothing. -/
theorem SanityCheck_first_failure_witness :
    Logger.std.IsLevelEnabled Level.ErrorLevel = true ∧
    (SanityCheck onlyTmp
      (withCluster sampleConf { sampleConf.Pxcluster with MaxNumWriters := 2, BckHgW := 1 })
      Logger.std).log.Records =
      [{ Level := Level.ErrorLevel, Message := singlePrimaryMessage }] ∧
    (SanityCheck onlyTmp sampleConf Logger.std).log.Records = [] ∧
    ∃ added : List Record,
      (SanityCheck onlyTmp sampleConf Logger.std).log.Records = Logger.std.Records ++ added ∧
      errorsOf added = [] := by
  refine ⟨by decide, by decide, by decide, ?_⟩
  obtain ⟨added, h1, h2, _⟩ :=
    SanityCheck_first_failure onlyTmp sampleConf Logger.std (by decide)
  exact ⟨added, h1, h2 (by decide)⟩

/-! ## Decimal rendering -/

/-- The digit character of a number below ten is a decimal digit and denotes
that number. -/
theorem digitChar_lt_ten : ∀ k : Fin 10,
    Nat.digitChar k.val ∈ decimalDigits ∧ (Nat.digitChar k.val).toNat - 48 = k.val := by
  decide

/-- Decoding a numeral extended by one digit. -/
theorem decodeNat_append_singleton (l : List Char) (c : Char) :
    decodeNat (l ++ [c]) = decodeNat l * 10 + (c.toNat - 48) := by
  simp [decodeNat, List.foldl_append]

/-- With enough fuel, `Nat.toDigitsCore 10` puts in front of the accumulator a
non-empty list of decimal digits that denotes the number. -/
theorem toDigitsCore_spec (f : Nat) : ∀ (n : Nat) (ds : List Char), n < f →
    ∃ l : List Char, Nat.toDigitsCore 10 f n ds = l ++ ds ∧ l ≠ [] ∧
      (∀ c ∈ l, c ∈ decimalDigits) ∧ decodeNat l = n := by
  induction f with
  | zero => intro n ds h; omega
  | succ f ih =>
    intro n ds hn
    have hd := digitChar_lt_ten ⟨n % 10, Nat.mod_lt _ (by decide)⟩
    simp only at hd
    by_cases h0 : n / 10 = 0
    · refine ⟨[Nat.digitChar (n % 10)], ?_, by simp, ?_, ?_⟩
      · simp [Nat.toDigitsCore, h0]
      · intro c hc
        simp only [List.mem_singleton] at hc
        rw [hc]
        exact hd.1
      · simp only [decodeNat, List.foldl_cons, List.foldl_nil, hd.2]
        omega
    · obtain ⟨l, hl, _, hdig, hval⟩ := ih (n / 10) (Nat.digitChar (n % 10) :: ds) (by omega)
      refine ⟨l ++ [Nat.digitChar (n % 10)], ?_, by simp, ?_, ?_⟩
      · simp [Nat.toDigitsCore, h0, hl]
      · intro c hc
        rcases List.mem_append.mp hc with hc | hc
        · exact hdig c hc
        · simp only [List.mem_singleton] at hc
          rw [hc]
          exact hd.1
      · rw [decodeNat_append_singleton, hval, hd.2]
        omega

/-- The rendering of a natural number: non-empty, decimal digits only, and it
denotes the number. -/
theorem Nat_repr_spec (n : Nat) :
    (Nat.repr n).data ≠ [] ∧ (∀ c ∈ (Nat.repr n).data, c ∈ decimalDigits) ∧
    decodeNat (Nat.repr n).data = n := by
  obtain ⟨l, hl, hne, hdig, hval⟩ := toDigitsCore_spec (n + 1) n [] (by omega)
  have : (Nat.repr n).data = l := by
    simp [Nat.repr, Nat.toDigits, hl, List.asString]
  rw [this]
  exact ⟨hne, hdig, hval⟩

/-- The characters of `Itoa`: decimal digits and the minus sign. -/
theorem Itoa_chars (i : Int) : ∀ c ∈ (Itoa i).data, c ∈ decimalDigits ∨ c = '-' := by
  intro c hc
  cases i with
  | ofNat m =>
    exact Or.inl ((Nat_repr_spec m).2.1 c hc)
  | negSucc m =>
    have hd : (Itoa (Int.negSucc m)).data = '-' :: (Nat.repr (m + 1)).data := rfl
    rw [hd] at hc
    rcases List.mem_cons.mp hc with hc | hc
    · exact Or.inr hc
    · exact Or.inl ((Nat_repr_spec (m + 1)).2.1 c hc)

/-- Different integers have different renderings. -/
theorem Itoa_injective (i j : Int) (h : Itoa i = Itoa j) : i = j := by
  have hd := congrArg String.data h
  have hminus : ('-' : Char) ∉ decimalDigits := by decide
  cases i with
  | ofNat m =>
    cases j with
    | ofNat k =>
      have e : (Nat.repr m).data = (Nat.repr k).data := hd
      have := congrArg decodeNat e
      rw [(Nat_repr_spec m).2.2, (Nat_repr_spec k).2.2] at this
      rw [this]
    | negSucc k =>
      exfalso
      have e : (Nat.repr m).data = '-' :: (Nat.repr (k + 1)).data := hd
      apply hminus
      apply (Nat_repr_spec m).2.1
      rw [e]
      exact List.mem_cons_self _ _
  | negSucc m =>
    cases j with
    | ofNat k =>
      exfalso
      have e : '-' :: (Nat.repr (m + 1)).data = (Nat.repr k).data := hd
      apply hminus
      apply (Nat_repr_spec k).2.1
      rw [← e]
      exact List.mem_cons_self _ _
    | negSucc k =>
      have e : '-' :: (Nat.repr (m + 1)).data = '-' :: (Nat.repr (k + 1)).data := hd
      have e2 := congrArg decodeNat (List.cons.inj e).2
      rw [(Nat_repr_spec (m + 1)).2.2, (Nat_repr_spec (k + 1)).2.2] at e2
      have : m = k := by omega
      rw [this]

/-- Two texts that agree, each cut at the first occurrence of `c`, have equal
parts before and after the cut. -/
theorem split_first {α : Type} (c : α) : ∀ (a a2 b b2 : List α), c ∉ a → c ∉ a2 →
    a ++ c :: b = a2 ++ c :: b2 → a = a2 ∧ b = b2 := by
  intro a
  induction a with
  | nil =>
    intro a2 b b2 _ h2 h
    cases a2 with
    | nil => simpa using h
    | cons x xs =>
      simp only [List.nil_append, List.cons_append, List.cons.injEq] at h
      exact absurd (h.1 ▸ List.mem_cons_self _ _) h2
  | cons y ys ih =>
    intro a2 b b2 h1 h2 h
    cases a2 with
    | nil =>
      simp only [List.nil_append, List.cons_append, List.cons.injEq] at h
      exact absurd (h.1 ▸ List.mem_cons_self _ _) h1
    | cons x xs =>
      simp only [List.cons_append, List.cons.injEq] at h
      obtain ⟨e1, e2⟩ := ih xs b b2 (fun hm => h1 (List.mem_cons_of_mem _ hm))
        (fun hm => h2 (List.mem_cons_of_mem _ hm)) h.2
      exact ⟨by rw [h.1, e1], e2⟩

/-- A rendered integer contains neither a blank nor a semicolon. -/
theorem Itoa_no_separator (i : Int) : ' ' ∉ (Itoa i).data ∧ ';' ∉ (Itoa i).data := by
  constructor
  · intro h
    rcases Itoa_chars i _ h with h | h
    · revert h; decide
    · revert h; decide
  · intro h
    rcases Itoa_chars i _ h with h | h
    · revert h; decide
    · revert h; decide

/-- The hostgroup diagnostic determines the four identifiers it names. -/
theorem hgMessage_injective (c c2 : pxcCluster) (h : hgMessage c = hgMessage c2) :
    c.HgW = c2.HgW ∧ c.BckHgW = c2.BckHgW ∧ c.HgR = c2.HgR ∧ c.BckHgR = c2.BckHgR := by
  have hd := congrArg String.data h
  simp [hgMessage] at hd
  obtain ⟨e1, r1⟩ := split_first ' ' _ _ _ _ (Itoa_no_separator c.HgW).1
    (Itoa_no_separator c2.HgW).1 hd
  simp at r1
  obtain ⟨e2, r2⟩ := split_first ';' _ _ _ _ (Itoa_no_separator c.BckHgW).2
    (Itoa_no_separator c2.BckHgW).2 r1
  simp at r2
  obtain ⟨e3, r3⟩ := split_first ' ' _ _ _ _ (Itoa_no_separator c.HgR).1
    (Itoa_no_separator c2.HgR).1 r2
  simp at r3
  exact ⟨Itoa_injective _ _ (String.ext e1), Itoa_injective _ _ (String.ext e2),
    Itoa_injective _ _ (String.ext e3), Itoa_injective _ _ (String.ext r3)⟩

/-- The hostgroup diagnostic contains the rendering of each of the four
identifiers. -/
theorem hgMessage_occurs (c : pxcCluster) :
    occursIn (Itoa c.HgW) (hgMessage c) ∧ occursIn (Itoa c.BckHgW) (hgMessage c) ∧
    occursIn (Itoa c.HgR) (hgMessage c) ∧ occursIn (Itoa c.BckHgR) (hgMessage c) := by
  refine ⟨⟨"Hostgroups and Backup HG do not match. HGw ",
      " - BKHGw " ++ Itoa c.BckHgW ++ "; HGr " ++ Itoa c.HgR ++ " - BKHGr " ++ Itoa c.BckHgR, ?_⟩,
    ⟨"Hostgroups and Backup HG do not match. HGw " ++ Itoa c.HgW ++ " - BKHGw ",
      "; HGr " ++ Itoa c.HgR ++ " - BKHGr " ++ Itoa c.BckHgR, ?_⟩,
    ⟨"Hostgroups and Backup HG do not match. HGw " ++ Itoa c.HgW ++ " - BKHGw " ++
      Itoa c.BckHgW ++ "; HGr ", " - BKHGr " ++ Itoa c.BckHgR, ?_⟩,
    ⟨"Hostgroups and Backup HG do not match. HGw " ++ Itoa c.HgW ++ " - BKHGw " ++
      Itoa c.BckHgW ++ "; HGr " ++ Itoa c.HgR ++ " - BKHGr ", "", ?_⟩⟩ <;>
    (apply String.ext; simp [hgMessage])

/-- C13, the claim fails: two configurations rejected by the single-primary
test with `MaxNumWriters` 2 and 7 get the same diagnostic, a fixed text in
which neither `2` nor `7` occurs. -/
theorem SanityCheck_diagnostic_counterexample :
    (SanityCheck onlyTmp
      (withCluster sampleConf { sampleConf.Pxcluster with MaxNumWriters := 2 })
      Logger.std).ok = false ∧
    (SanityCheck onlyTmp
      (withCluster sampleConf { sampleConf.Pxcluster with MaxNumWriters := 7 })
      Logger.std).ok = false ∧
    (SanityCheck onlyTmp
      (withCluster sampleConf { sampleConf.Pxcluster with MaxNumWriters := 2 })
      Logger.std).log.Records =
      [{ Level := Level.ErrorLevel,
         Message := "Configuration error cannot have SinglePrimary true and MaxNumWriter >1" }] ∧
    (SanityCheck onlyTmp
      (withCluster sampleConf { sampleConf.Pxcluster with MaxNumWriters := 7 })
      Logger.std).log.Records =
      [{ Level := Level.ErrorLevel,
         Message := "Configuration error cannot have SinglePrimary true and MaxNumWriter >1" }] ∧
    '2' ∉ "Configuration error cannot have SinglePrimary true and MaxNumWriter >1".data ∧
    '7' ∉ "Configuration error cannot have SinglePrimary true and MaxNumWriter >1".data := by
  decide

/-- C13 as amended: with the error level enabled, a rejecting `SanityCheck`
ends its records with one error diagnostic `d`.  For the single-primary test
and for the writer-is-also-reader test `d` is a fixed text that names the
fields, not their values.  For the hostgroup test `d` contains the decimal
values of `HgW`, `BckHgW`, `HgR`, `BckHgR`, and only a cluster section with
the same four values has the same diagnostic.  For the lock path test `d`
contains the path of the record, `/tmp`. -/
theorem SanityCheck_diagnostic (fs : String → Bool) (conf : Configuration) (lg : Logger)
    (hE : lg.IsLevelEnabled Level.ErrorLevel = true)
    (hrej : (SanityCheck fs conf lg).ok = false) :
    ∃ (before : List Record) (d : String),
      (SanityCheck fs conf lg).log.Records =
        before ++ [{ Level := Level.ErrorLevel, Message := d }] ∧
      (¬ singlePrimaryOk conf.Pxcluster →
        d = "Configuration error cannot have SinglePrimary true and MaxNumWriter >1") ∧
      (singlePrimaryOk conf.Pxcluster → ¬ writerReaderOk conf.Pxcluster → d =
        "Configuration error cannot have WriterIsAlsoReader NOT = 1 and use more than one Writer")
      ∧
      (singlePrimaryOk conf.Pxcluster → writerReaderOk conf.Pxcluster →
        ¬ hostgroupsOk conf.Pxcluster →
          occursIn (Itoa conf.Pxcluster.HgW) d ∧ occursIn (Itoa conf.Pxcluster.BckHgW) d ∧
          occursIn (Itoa conf.Pxcluster.HgR) d ∧ occursIn (Itoa conf.Pxcluster.BckHgR) d ∧
          ∀ c2 : pxcCluster, hgMessage c2 = d →
            c2.HgW = conf.Pxcluster.HgW ∧ c2.BckHgW = conf.Pxcluster.BckHgW ∧
            c2.HgR = conf.Pxcluster.HgR ∧ c2.BckHgR = conf.Pxcluster.BckHgR) ∧
      (singlePrimaryOk conf.Pxcluster → writerReaderOk conf.Pxcluster →
        hostgroupsOk conf.Pxcluster →
          (SanityCheck fs conf lg).conf.Proxysql.LockFilePath = "/tmp" ∧
          occursIn (SanityCheck fs conf lg).conf.Proxysql.LockFilePath d) := by
  have hlog := SanityCheck_log fs conf lg
  by_cases h1 : singlePrimaryOk conf.Pxcluster
  · by_cases h2 : writerReaderOk conf.Pxcluster
    · by_cases h3 : hostgroupsOk conf.Pxcluster
      · have hcase := (SanityCheck_ok_false_iff fs conf lg).1 hrej
        have hpf : conf.Proxysql.LockFilePath = "" ∧ fs "/tmp" = false := by
          rcases hcase with hc | hc
          · exact absurd ⟨h1, h2, h3⟩ hc
          · exact hc
        have hconf := (SanityCheck_of_fieldsOk fs conf lg h1 h2 h3).2
        rw [if_pos hpf.1] at hconf
        refine ⟨(lg.Warn ("LockFilePath is invalid. Currently set to: |" ++
            conf.Proxysql.LockFilePath ++ "|  I will set to /tmp/ ")).Records,
          lockPathMessage, ?_, fun h => absurd h1 h, fun _ h => absurd h2 h,
          fun _ _ h => absurd h3 h, fun _ _ _ => ⟨?_, ?_⟩⟩
        · rw [hlog, if_neg (not_not.mpr h1), if_neg (not_not.mpr h2),
            if_neg (not_not.mpr h3), if_pos hpf.1, if_neg (by simp [hpf.2])]
          exact Error_Records _ _ (by rw [(Warn_Records lg _).2]; exact hE)
        · rw [hconf]
          rfl
        · rw [hconf]
          exact ⟨"LockFilePath is not accessible currently set to: |", "|", rfl⟩
      · refine ⟨lg.Records, hgMessage conf.Pxcluster, ?_, fun h => absurd h1 h,
          fun _ h => absurd h2 h, fun _ _ _ => ?_, fun _ _ h => absurd h h3⟩
        · rw [hlog, if_neg (not_not.mpr h1), if_neg (not_not.mpr h2), if_pos h3]
          exact Error_Records _ _ hE
        · obtain ⟨o1, o2, o3, o4⟩ := hgMessage_occurs conf.Pxcluster
          exact ⟨o1, o2, o3, o4, fun c2 hc2 => hgMessage_injective c2 conf.Pxcluster hc2⟩
    · refine ⟨lg.Records, writerReaderMessage, ?_, fun h => absurd h1 h, fun _ _ => rfl,
        fun _ h => absurd h h2, fun _ h => absurd h h2⟩
      rw [hlog, if_neg (not_not.mpr h1), if_pos h2]
      exact Error_Records _ _ hE
  · refine ⟨lg.Records, singlePrimaryMessage, ?_, fun _ => rfl, fun h => absurd h h1,
      fun h => absurd h h1, fun h => absurd h h1⟩
    rw [hlog, if_pos h1]
    exact Error_Records _ _ hE

/-- Witness of C13 as amended: hostgroups 0 and 1 with backups 7999 and 8001
are rejected by the hostgroup test with a diagnostic that spells the four
values. -/
theorem SanityCheck_diagnostic_witness :
    (SanityCheck onlyTmp
      (withCluster sampleConf { sampleConf.Pxcluster with BckHgW := 7999 })
      Logger.std).log.Records =
      [{ Level := Level.ErrorLevel,
         Message :=
          "Hostgroups and Backup HG do not match. HGw 0 - BKHGw 7999; HGr 1 - BKHGr 8001" }] ∧
    ∃ (before : List Record) (d : String),
      (SanityCheck onlyTmp
        (withCluster sampleConf { sampleConf.Pxcluster with BckHgW := 7999 })
        Logger.std).log.Records = before ++ [{ Level := Level.ErrorLevel, Message := d }] ∧
      occursIn (Itoa 7999) d := by
  refine ⟨by decide, ?_⟩
  obtain ⟨before, d, hrec, _, _, h3, _⟩ :=
    SanityCheck_diagnostic onlyTmp
      (withCluster sampleConf { sampleConf.Pxcluster with BckHgW := 7999 })
      Logger.std (by decide) (by decide)
  exact ⟨before, d, hrec, (h3 (by decide) (by decide) (by decide)).2.1⟩

/-! ## Destination and self-test of `InitLog` -/

/-- Emission does not change the destination. -/
theorem Log_Out (lg : Logger) (lvl : Level) (msg : String) :
    (lg.Log lvl msg).Out = lg.Out := by
  unfold Logger.Log
  split <;> rfl

/-- Under the debug threshold every emission at debug, info, warning or error
level appends its record. -/
theorem Log_of_debug (lg : Logger) (lvl : Level) (msg : String)
    (hd : lg.Level = Level.DebugLevel) (hl : lvl.toNat ≤ 5) :
    lg.Log lvl msg =
      { lg with Records := lg.Records ++ [{ Level := lvl, Message := msg }] } := by
  have he : lg.IsLevelEnabled lvl = true := by
    unfold Logger.IsLevelEnabled
    rw [hd]
    exact decide_eq_true hl
  unfold Logger.Log
  rw [if_pos he]

/-- The destination step of `InitLog` followed by `levelAndSelfTest` is
`InitLog`. -/
theorem InitLog_eq (tbl : Char → Char) (OpenFile : String → Option String)
    (config : Configuration) (lg : Logger) :
    InitLog tbl OpenFile config lg =
      (if ToLower tbl config.Global.LogTarget = "stdout" then
        { ok := true,
          log := levelAndSelfTest (ToLower tbl config.Global.LogLevel)
            ((lg.SetFormatter { TimestampFormat := "2006-01-02 15:04:05" }).SetOutput
              Output.stdout) }
      else if ToLower tbl config.Global.LogTarget = "file" ∧ config.Global.LogFile ≠ "" then
        match OpenFile config.Global.LogFile with
        | none =>
          { ok := true,
            log := levelAndSelfTest (ToLower tbl config.Global.LogLevel)
              ((lg.SetFormatter { TimestampFormat := "2006-01-02 15:04:05" }).SetOutput
                (Output.file config.Global.LogFile)) }
        | some err =>
          { ok := false,
            log := (lg.SetFormatter { TimestampFormat := "2006-01-02 15:04:05" }).Error
              ("Error logging to file " ++ err) }
      else
        { ok := true,
          log := levelAndSelfTest (ToLower tbl config.Global.LogLevel)
            (lg.SetFormatter { TimestampFormat := "2006-01-02 15:04:05" }) }) := by
  unfold InitLog levelAndSelfTest
  dsimp only
  by_cases hs : ToLower tbl config.Global.LogTarget = "stdout"
  · rw [if_pos hs, if_pos hs]
  · rw [if_neg hs, if_neg hs]
    by_cases hf : ToLower tbl config.Global.LogTarget = "file" ∧ config.Global.LogFile ≠ ""
    · rw [if_pos hf, if_pos hf]
      cases OpenFile config.Global.LogFile <;> rfl
    · rw [if_neg hf, if_neg hf]

/-- What `levelAndSelfTest` does: the destination is kept, the threshold is
the one named, and the records grow by the five self-test records for the
name `debug` and not at all otherwise. -/
theorem levelAndSelfTest_spec (level : String) (lg2 : Logger) :
    (levelAndSelfTest level lg2).Out = lg2.Out ∧
    (levelAndSelfTest level lg2).Records =
      lg2.Records ++ (if level = "debug" then selfTestRecords else []) ∧
    (level = "debug" → (levelAndSelfTest level lg2).Level = Level.DebugLevel) := by
  unfold levelAndSelfTest
  by_cases h1 : level = "debug"
  · simp only [h1, if_true, Logger.SetLevel, Logger.Debug, Logger.Info, Logger.Warn,
      Logger.Error]
    rw [Log_of_debug _ Level.DebugLevel _ rfl (by decide)]
    rw [Log_of_debug _ Level.InfoLevel _ rfl (by decide)]
    rw [Log_of_debug _ Level.WarnLevel _ rfl (by decide)]
    rw [Log_of_debug _ Level.ErrorLevel _ rfl (by decide)]
    rw [Log_of_debug _ Level.DebugLevel _ rfl (by decide)]
    simp [selfTestRecords]
  · by_cases h2 : level = "info"
    · simp [h1, h2, Logger.SetLevel]
    · by_cases h3 : level = "warning"
      · simp [h1, h2, h3, Logger.SetLevel]
      · by_cases h4 : level = "error"
        · simp [h4, Logger.SetLevel]
        · simp [h1, h2, h3, h4, Logger.SetLevel]

/-- C12: `InitLog` returns false iff the lower-cased target is `file`, the
file path is non-empty and the file does not open.  Afterwards the destination
is the console stream for the target `stdout`, the opened file for the target
`file` with a non-empty path that opens, and the destination from before the
call in every other case (other target, empty path, open failure). -/
theorem InitLog_destination (tbl : Char → Char) (OpenFile : String → Option String)
    (config : Configuration) (lg : Logger) :
    ((InitLog tbl OpenFile config lg).ok = false ↔
      (ToLower tbl config.Global.LogTarget = "file" ∧ config.Global.LogFile ≠ "" ∧
        OpenFile config.Global.LogFile ≠ none)) ∧
    (ToLower tbl config.Global.LogTarget = "stdout" →
      (InitLog tbl OpenFile config lg).log.Out = Output.stdout) ∧
    (ToLower tbl config.Global.LogTarget = "file" → config.Global.LogFile ≠ "" →
      OpenFile config.Global.LogFile = none →
      (InitLog tbl OpenFile config lg).log.Out = Output.file config.Global.LogFile) ∧
    (ToLower tbl config.Global.LogTarget ≠ "stdout" →
      ¬ (ToLower tbl config.Global.LogTarget = "file" ∧ config.Global.LogFile ≠ "" ∧
        OpenFile config.Global.LogFile = none) →
      (InitLog tbl OpenFile config lg).log.Out = lg.Out) := by
  rw [InitLog_eq]
  by_cases hs : ToLower tbl config.Global.LogTarget = "stdout"
  · rw [if_pos hs]
    have hnf : ToLower tbl config.Global.LogTarget ≠ "file" := by
      rw [hs]
      decide
    refine ⟨?_, ?_, ?_, ?_⟩
    · simp [hnf]
    · intro _
      exact (levelAndSelfTest_spec _ _).1
    · intro h
      exact absurd h hnf
    · intro h
      exact absurd hs h
  · rw [if_neg hs]
    by_cases hf : ToLower tbl config.Global.LogTarget = "file" ∧ config.Global.LogFile ≠ ""
    · rw [if_pos hf]
      cases ho : OpenFile config.Global.LogFile with
      | none =>
        refine ⟨?_, ?_, ?_, ?_⟩
        · simp
        · intro h
          exact absurd h hs
        · intro _ _ _
          exact (levelAndSelfTest_spec _ _).1
        · intro _ h
          exact absurd ⟨hf.1, hf.2, rfl⟩ h
      | some err =>
        refine ⟨?_, ?_, ?_, ?_⟩
        · simp [hf.1, hf.2]
        · intro h
          exact absurd h hs
        · intro _ _ h
          cases h
        · intro _ _
          exact Log_Out _ _ _
    · rw [if_neg hf]
      refine ⟨?_, ?_, ?_, ?_⟩
      · constructor
        · intro h
          cases h
        · intro h
          exact absurd ⟨h.1, h.2.1⟩ hf
      · intro h
        exact absurd h hs
      · intro h1 h2 _
        exact absurd ⟨h1, h2⟩ hf
      · intro _ _
        exact (levelAndSelfTest_spec _ _).1

/-- Witness of C12: the target `FILE` with a path that does not open makes
`InitLog` return false and leaves standard error; when the path opens the
destination is that file; the target `StdOut` gives the console; an unknown
target and the target `file` with an empty path leave standard error. -/
theorem InitLog_destination_witness :
    (InitLog id opensNone (targetConf "FILE" "/var/log/pxc.log" "info") Logger.std).ok = false ∧
    (InitLog id opensNone (targetConf "FILE" "/var/log/pxc.log" "info") Logger.std).log.Out
      = Output.stderr ∧
    (InitLog id opensAll (targetConf "FILE" "/var/log/pxc.log" "info") Logger.std).log.Out
      = Output.file "/var/log/pxc.log" ∧
    (InitLog id opensAll (targetConf "StdOut" "" "info") Logger.std).log.Out = Output.stdout ∧
    (InitLog id opensAll (targetConf "syslog" "" "info") Logger.std).log.Out = Output.stderr ∧
    (InitLog id opensNone (targetConf "file" "" "info") Logger.std).ok = true :=
  ⟨(InitLog_destination id opensNone (targetConf "FILE" "/var/log/pxc.log" "info")
      Logger.std).1.2 ⟨by decide, by decide, by decide⟩,
   (InitLog_destination id opensNone (targetConf "FILE" "/var/log/pxc.log" "info")
      Logger.std).2.2.2 (by decide) (by decide),
   (InitLog_destination id opensAll (targetConf "FILE" "/var/log/pxc.log" "info")
      Logger.std).2.2.1 (by decide) (by decide) (by decide),
   (InitLog_destination id opensAll (targetConf "StdOut" "" "info") Logger.std).2.1 (by decide),
   (InitLog_destination id opensAll (targetConf "syslog" "" "info") Logger.std).2.2.2
      (by decide) (by decide),
   by decide⟩

/-- C17: when the destination step succeeds, `InitLog` emits exactly the five
self-test records, at the levels debug, info, warning, error, debug in this
order, when the lower-cased level name is `debug`, and the threshold is then
debug; for every other level name it emits no record. -/
theorem InitLog_selfTest (tbl : Char → Char) (OpenFile : String → Option String)
    (config : Configuration) (lg : Logger)
    (hok : (InitLog tbl OpenFile config lg).ok = true) :
    (ToLower tbl config.Global.LogLevel = "debug" →
      (InitLog tbl OpenFile config lg).log.Records = lg.Records ++
        [{ Level := Level.DebugLevel, Message := "Testing the log" },
         { Level := Level.InfoLevel, Message := "Testing the log" },
         { Level := Level.WarnLevel, Message := "Testing the log" },
         { Level := Level.ErrorLevel, Message := "testing log errors" },
         { Level := Level.DebugLevel, Message := "Log initialized" }] ∧
      (InitLog tbl OpenFile config lg).log.Level = Level.DebugLevel) ∧
    (ToLower tbl config.Global.LogLevel ≠ "debug" →
      (InitLog tbl OpenFile config lg).log.Records = lg.Records) := by
  have key : ∃ lg2 : Logger, lg2.Records = lg.Records ∧
      (InitLog tbl OpenFile config lg).log =
        levelAndSelfTest (ToLower tbl config.Global.LogLevel) lg2 := by
    rw [InitLog_eq] at hok ⊢
    by_cases hs : ToLower tbl config.Global.LogTarget = "stdout"
    · rw [if_pos hs]
      exact ⟨(lg.SetFormatter { TimestampFormat := "2006-01-02 15:04:05" }).SetOutput
        Output.stdout, rfl, rfl⟩
    · rw [if_neg hs] at hok ⊢
      by_cases hf : ToLower tbl config.Global.LogTarget = "file" ∧ config.Global.LogFile ≠ ""
      · rw [if_pos hf] at hok ⊢
        cases ho : OpenFile config.Global.LogFile with
        | none =>
          exact ⟨(lg.SetFormatter { TimestampFormat := "2006-01-02 15:04:05" }).SetOutput
            (Output.file config.Global.LogFile), rfl, rfl⟩
        | some err =>
          rw [ho] at hok
          cases hok
      · rw [if_neg hf]
        exact ⟨lg.SetFormatter { TimestampFormat := "2006-01-02 15:04:05" }, rfl, rfl⟩
  obtain ⟨lg2, hrec, hlog⟩ := key
  obtain ⟨_, hR, hL⟩ := levelAndSelfTest_spec (ToLower tbl config.Global.LogLevel) lg2
  rw [hlog, hR, hrec]
  constructor
  · intro hd
    rw [if_pos hd]
    exact ⟨rfl, hL hd⟩
  · intro hd
    rw [if_neg hd]
    simp

/-- Witness of C17: the level name `DEBUG` on the fresh logger gives the five
records and the debug threshold; the level name `info` gives no record. -/
theorem InitLog_selfTest_witness :
    ((InitLog id opensAll (levelConf "DEBUG") Logger.std).log.Records.map (fun r => r.Level)
      = [Level.DebugLevel, Level.InfoLevel, Level.WarnLevel, Level.ErrorLevel,
         Level.DebugLevel]) ∧
    (InitLog id opensAll (levelConf "DEBUG") Logger.std).log.Level = Level.DebugLevel ∧
    (InitLog id opensAll (levelConf "info") Logger.std).log.Records = [] :=
  ⟨by decide,
   ((InitLog_selfTest id opensAll (levelConf "DEBUG") Logger.std (by decide)).1 (by decide)).2,
   (InitLog_selfTest id opensAll (levelConf "info") Logger.std (by decide)).2 (by decide)⟩

/-! ## Order of the fields and reading a line back -/

/-- C14, the claim fails: the two-field entry rendered in the two orders in
which `range` may visit its map gives two different lines. -/
theorem Format_order_counterexample :
    List.Perm [("node", "db1"), ("hg", "100")] twoFieldEntry.Data ∧
    List.Perm [("hg", "100"), ("node", "db1")] twoFieldEntry.Data ∧
    Format id sampleTimeFormat id { TimestampFormat := "2006-01-02 15:04:05" } twoFieldEntry
        [("node", "db1"), ("hg", "100")] =
      .ok "\x1b[33m[WARNING]\x1b[0m:2021-03-04 05:06:07 || node=\x7bdb1\x7d, hg=\x7b100\x7d, \n" ∧
    Format id sampleTimeFormat id { TimestampFormat := "2006-01-02 15:04:05" } twoFieldEntry
        [("hg", "100"), ("node", "db1")] =
      .ok "\x1b[33m[WARNING]\x1b[0m:2021-03-04 05:06:07 || hg=\x7b100\x7d, node=\x7bdb1\x7d, \n" ∧
    "\x1b[33m[WARNING]\x1b[0m:2021-03-04 05:06:07 || node=\x7bdb1\x7d, hg=\x7b100\x7d, \n" ≠
      "\x1b[33m[WARNING]\x1b[0m:2021-03-04 05:06:07 || hg=\x7b100\x7d, node=\x7bdb1\x7d, \n" :=
  ⟨List.Perm.refl _, List.Perm.swap _ _ _, rfl, rfl, by decide⟩

/-- C14 as amended: for one entry and one time stamp layout, two invocations
of `Format` return the same bytes when the entry has at most one field; with
more fields the two lines have the same start, up to and including the
separator, and field segments that are a rearrangement of one another, in the
order in which `range` visited the map in each invocation. -/
theorem Format_determined {T V : Type} (upperTbl : Char → Char)
    (timeFormat : T → String → String) (Fprint : V → String) (f : LogFormat)
    (entry : Entry T V) (visit1 visit2 : List (String × V))
    (h1 : visit1.Perm entry.Data) (h2 : visit2.Perm entry.Data) :
    (entry.Data.length ≤ 1 →
      Format upperTbl timeFormat Fprint f entry visit1 =
        Format upperTbl timeFormat Fprint f entry visit2) ∧
    (∃ (start : String) (segs1 segs2 : List String),
      segs1.Perm segs2 ∧
      segs1.Perm (entry.Data.map (fun kv => kv.1 ++ "=\x7b" ++ Fprint kv.2 ++ "\x7d, ")) ∧
      Format upperTbl timeFormat Fprint f entry visit1 =
        .ok (start ++ String.join segs1 ++ "\n") ∧
      Format upperTbl timeFormat Fprint f entry visit2 =
        .ok (start ++ String.join segs2 ++ "\n")) := by
  constructor
  · intro hlen
    have hv : visit1 = visit2 := by
      cases hD : entry.Data with
      | nil =>
        rw [hD] at h1 h2
        rw [List.perm_nil.mp h1, List.perm_nil.mp h2]
      | cons a rest =>
        cases rest with
        | nil =>
          rw [hD] at h1 h2
          rw [List.perm_singleton.mp h1, List.perm_singleton.mp h2]
        | cons b rest2 =>
          rw [hD] at hlen
          simp at hlen
    rw [hv]
  · refine ⟨entry.Buffer.getD "" ++
        lineHead upperTbl timeFormat f.TimestampFormat entry.Level entry.Time ++
        (if entry.Message ≠ "" then " - " ++ entry.Message else "") ++
        (if entry.Data.length > 0 then " || " else ""),
      visit1.map (fieldSegment Fprint), visit2.map (fieldSegment Fprint),
      (h1.trans h2.symm).map _, h1.map _, ?_, ?_⟩
    · rw [Format_eq]
    · rw [Format_eq]

/-- Witness of C14 as amended: the one-field sample entry has a single
rendering, whatever arrangement of its map is visited. -/
theorem Format_determined_witness :
    Format id sampleTimeFormat id { TimestampFormat := "2006-01-02 15:04:05" } sampleEntry
        [("node", "db1")] =
      Format id sampleTimeFormat id { TimestampFormat := "2006-01-02 15:04:05" } sampleEntry
        sampleEntry.Data :=
  (Format_determined id sampleTimeFormat id { TimestampFormat := "2006-01-02 15:04:05" }
    sampleEntry [("node", "db1")] sampleEntry.Data (List.Perm.refl _) (List.Perm.refl _)).1
    (by decide)

/-- The message segment determines the message. -/
theorem messageSegment_injective (m1 m2 : String)
    (h : messageSegment m1 = messageSegment m2) : m1 = m2 := by
  have hd := congrArg String.data h
  unfold messageSegment at hd
  by_cases h1 : m1 = "" <;> by_cases h2 : m2 = ""
  · rw [h1, h2]
  · simp [h1, h2] at hd
  · simp [h1, h2] at hd
  · simp [h1, h2] at hd
    exact String.ext hd

/-- A message without a bar gives a message segment without a bar. -/
theorem bar_not_mem_messageSegment (m : String) (h : '|' ∉ m.data) :
    '|' ∉ (messageSegment m).data := by
  unfold messageSegment
  by_cases h1 : m = ""
  · simp [h1]
  · simp [h1, h]

/-- Field segments can be read back: when no key contains `=` and no printed
value contains a closing brace, equal concatenations of field segments come
from equal sequences of keys and printed values. -/
theorem fieldSegments_injective {V : Type} (Fprint : V → String) :
    ∀ (p q : List (String × V)),
      (∀ kv ∈ p, '=' ∉ kv.1.data ∧ '\x7d' ∉ (Fprint kv.2).data) →
      (∀ kv ∈ q, '=' ∉ kv.1.data ∧ '\x7d' ∉ (Fprint kv.2).data) →
      (String.join (p.map (fieldSegment Fprint))).data =
        (String.join (q.map (fieldSegment Fprint))).data →
      p.map (printed Fprint) = q.map (printed Fprint) := by
  intro p
  induction p with
  | nil =>
    intro q _ _ h
    cases q with
    | nil => rfl
    | cons b q2 =>
      simp [fieldSegment] at h
  | cons a p2 ih =>
    intro q hp hq h
    cases q with
    | nil =>
      simp [fieldSegment] at h
    | cons b q2 =>
      simp [fieldSegment] at h
      have ha := hp a (List.mem_cons_self _ _)
      have hb := hq b (List.mem_cons_self _ _)
      obtain ⟨ek, r1⟩ := split_first '=' _ _ _ _ ha.1 hb.1 h
      simp at r1
      obtain ⟨ev, r2⟩ := split_first '\x7d' _ _ _ _ ha.2 hb.2 r1
      simp at r2
      have hrest := ih q2 (fun kv hkv => hp kv (List.mem_cons_of_mem _ hkv))
        (fun kv hkv => hq kv (List.mem_cons_of_mem _ hkv)) (by simpa using r2)
      simp only [List.map_cons, hrest, printed, String.ext ek, String.ext ev]

/-- C15, the claim fails: an entry without fields whose message ends in the
text of a field, and an entry with that field and the shorter message, have
the same level, time and buffer and give the same line. -/
theorem Format_injective_counterexample :
    spoofEntry.Level = sampleEntry.Level ∧ spoofEntry.Time = sampleEntry.Time ∧
    spoofEntry.Buffer = sampleEntry.Buffer ∧
    Format id sampleTimeFormat id { TimestampFormat := "2006-01-02 15:04:05" } spoofEntry [] =
      Format id sampleTimeFormat id { TimestampFormat := "2006-01-02 15:04:05" } sampleEntry
        [("node", "db1")] ∧
    spoofEntry.Message ≠ sampleEntry.Message ∧
    spoofEntry.Data ≠ sampleEntry.Data :=
  ⟨rfl, rfl, rfl, rfl, by decide, by decide⟩

/-- C15 as amended: for two entries with the same level, time and buffer whose
lines are equal, the messages are equal when neither entry has fields; and
when no message contains a bar, no key contains `=` and no printed value
contains a closing brace, the messages are equal and the fields, as keys with
printed values in the order rendered, are equal. -/
theorem Format_injective_restricted {T V : Type} (upperTbl : Char → Char)
    (timeFormat : T → String → String) (Fprint : V → String) (f : LogFormat)
    (e1 e2 : Entry T V) (visit1 visit2 : List (String × V))
    (hL : e1.Level = e2.Level) (hT : e1.Time = e2.Time) (hB : e1.Buffer = e2.Buffer)
    (hv1 : visit1.Perm e1.Data) (hv2 : visit2.Perm e2.Data)
    (heq : Format upperTbl timeFormat Fprint f e1 visit1 =
      Format upperTbl timeFormat Fprint f e2 visit2) :
    (e1.Data = [] → e2.Data = [] → e1.Message = e2.Message) ∧
    ('|' ∉ e1.Message.data → '|' ∉ e2.Message.data →
      (∀ kv ∈ e1.Data, '=' ∉ kv.1.data ∧ '\x7d' ∉ (Fprint kv.2).data) →
      (∀ kv ∈ e2.Data, '=' ∉ kv.1.data ∧ '\x7d' ∉ (Fprint kv.2).data) →
      e1.Message = e2.Message ∧
      visit1.map (printed Fprint) = visit2.map (printed Fprint) ∧
      (e1.Data.map (printed Fprint)).Perm (e2.Data.map (printed Fprint))) := by
  rw [Format_eq, Format_eq, hL, hT, hB] at heq
  have hs := Except.ok.inj heq
  have hd := congrArg String.data hs
  have hM1 : (if e1.Message ≠ "" then " - " ++ e1.Message else "") = messageSegment e1.Message :=
    rfl
  have hM2 : (if e2.Message ≠ "" then " - " ++ e2.Message else "") = messageSegment e2.Message :=
    rfl
  rw [hM1, hM2] at hd
  simp only [String.data_append, List.append_assoc, List.append_cancel_left_eq] at hd
  have hnil : ∀ (e : Entry T V) (visit : List (String × V)), visit.Perm e.Data →
      e.Data = [] → visit = [] ∧ ¬ e.Data.length > 0 := by
    intro e visit hv hD
    rw [hD] at hv
    exact ⟨List.perm_nil.mp hv, by simp [hD]⟩
  have hpos : ∀ (e : Entry T V), e.Data ≠ [] → e.Data.length > 0 :=
    fun e hD => List.length_pos.mpr hD
  constructor
  · intro hD1 hD2
    obtain ⟨hx1, hy1⟩ := hnil e1 visit1 hv1 hD1
    obtain ⟨hx2, hy2⟩ := hnil e2 visit2 hv2 hD2
    rw [if_neg hy1, if_neg hy2, hx1, hx2] at hd
    simp at hd
    exact messageSegment_injective _ _ (String.ext hd)
  · intro hm1 hm2 hk1 hk2
    have hb1 := bar_not_mem_messageSegment _ hm1
    have hb2 := bar_not_mem_messageSegment _ hm2
    by_cases hD1 : e1.Data = [] <;> by_cases hD2 : e2.Data = []
    · obtain ⟨hx1, hy1⟩ := hnil e1 visit1 hv1 hD1
      obtain ⟨hx2, hy2⟩ := hnil e2 visit2 hv2 hD2
      rw [if_neg hy1, if_neg hy2, hx1, hx2] at hd
      simp at hd
      refine ⟨messageSegment_injective _ _ (String.ext hd), ?_, ?_⟩
      · rw [hx1, hx2]
      · rw [hD1, hD2]
    · exfalso
      obtain ⟨hx1, hy1⟩ := hnil e1 visit1 hv1 hD1
      rw [if_neg hy1, if_pos (hpos e2 hD2), hx1] at hd
      have hmem : '|' ∈ (messageSegment e1.Message).data ++
          (("" : String).data ++ ((String.join (List.map (fieldSegment Fprint) [])).data
            ++ ['\n'])) := by
        rw [hd]
        simp
      simp at hmem
      exact hb1 hmem
    · exfalso
      obtain ⟨hx2, hy2⟩ := hnil e2 visit2 hv2 hD2
      rw [if_pos (hpos e1 hD1), if_neg hy2, hx2] at hd
      have hmem : '|' ∈ (messageSegment e2.Message).data ++
          (("" : String).data ++ ((String.join (List.map (fieldSegment Fprint) [])).data
            ++ ['\n'])) := by
        rw [← hd]
        simp
      simp at hmem
      exact hb2 hmem
    · rw [if_pos (hpos e1 hD1), if_pos (hpos e2 hD2)] at hd
      have hd2 : ((messageSegment e1.Message).data ++ [' ']) ++ '|' ::
            ('|' :: ' ' :: ((String.join (List.map (fieldSegment Fprint) visit1)).data
              ++ ['\n'])) =
          ((messageSegment e2.Message).data ++ [' ']) ++ '|' ::
            ('|' :: ' ' :: ((String.join (List.map (fieldSegment Fprint) visit2)).data
              ++ ['\n'])) := by
        simpa using hd
      obtain ⟨em, er⟩ := split_first '|' _ _ _ _ (by simp [hb1]) (by simp [hb2]) hd2
      simp only [List.append_cancel_right_eq] at em
      simp only [List.cons.injEq, true_and, List.append_cancel_right_eq] at er
      have hvis := fieldSegments_injective Fprint visit1 visit2
        (fun kv hkv => hk1 kv (hv1.mem_iff.mp hkv))
        (fun kv hkv => hk2 kv (hv2.mem_iff.mp hkv)) er
      refine ⟨messageSegment_injective _ _ (String.ext em), hvis, ?_⟩
      have p1 := (hv1.map (printed Fprint)).symm
      have p2 := hv2.map (printed Fprint)
      rw [hvis] at p1
      exact p1.trans p2

/-- Witness of C15 as amended: the one-field sample entry, read against
itself. -/
theorem Format_injective_restricted_witness :
    sampleEntry.Message = sampleEntry.Message ∧
    List.map (printed id) [("node", "db1")] = List.map (printed id) sampleEntry.Data ∧
    (sampleEntry.Data.map (printed id)).Perm (sampleEntry.Data.map (printed id)) :=
  (Format_injective_restricted id sampleTimeFormat id
    { TimestampFormat := "2006-01-02 15:04:05" } sampleEntry sampleEntry
    [("node", "db1")] sampleEntry.Data rfl rfl rfl (List.Perm.refl _) (List.Perm.refl _)
    rfl).2 (by decide) (by decide) (by decide) (by decide)

end Global
